import Mathlib

/-!
Shallow embedding of the core tick simulation of the comic-modernization
repository (player physics, door activation, enemy actor system), translated
from `src/src/physics.cpp`, `src/src/doors.cpp`, `src/src/level_loader.cpp`
and `src/src/actors.cpp`, together with theorems settling the frozen claims.

Machine integers are modelled as `Nat` / `Int` with explicit wrapping:
`toU8` mirrors conversion of a C++ `int` to `uint8_t`, `u8` mirrors
`uint8_t` arithmetic wrap, and `i8` mirrors storing an `int` into an
`int8_t` (modular, two's complement).  The C++ arithmetic right shift
`v >> 3` on a (sign-extended) `int8_t` is floor division by 8, i.e.
`Int.fdiv v 8`.
-/

namespace Comic

/-- Conversion of a C++ `int` value to `uint8_t` (mod 256, nonnegative). -/
def toU8 (v : Int) : Nat := (v % 256).toNat

/-- `uint8_t` arithmetic wrap. -/
def u8 (n : Nat) : Nat := n % 256

/-- Storing an `int` into an `int8_t`: two's-complement wrap to [-128,127]. -/
def i8 (v : Int) : Int := (v + 128) % 256 - 128

/-- Arithmetic right shift by 3 of a signed value, as the x86 `sar` and the
C++ `>> 3` on a negative signed integer: floor division by 8. -/
def sar3 (v : Int) : Int := Int.fdiv v 8

/- Constants from src/include/physics.h. -/

def COMIC_GRAVITY : Int := 5
def TERMINAL_VELOCITY : Int := 23
def JUMP_POWER_DEFAULT : Nat := 4
def JUMP_POWER_WITH_BOOTS : Nat := 5
def JUMP_ACCELERATION : Int := 7
def MAP_WIDTH_TILES : Nat := 128
def MAP_HEIGHT_TILES : Nat := 10
def MAP_WIDTH : Int := 256
def PLAYFIELD_WIDTH : Int := 24
def PLAYFIELD_HEIGHT : Int := 20

/- Level data model from src/include/level.h. -/

/-- door_t from level.h: coordinates and target, all uint8_t. -/
structure door_t where
  y : Nat
  x : Nat
  target_level : Nat
  target_stage : Nat

/-- enemy_record_t from level.h. -/
structure enemy_record_t where
  shp_index : Nat
  behavior : Nat

/-- stage_t from level.h (asset-file fields dropped; the `tiles` byte array
that level_loader.cpp copies into the runtime stage and physics.cpp reads is
modelled as a function from tile coordinates to tile ids). -/
structure stage_t where
  item_type : Nat
  item_y : Nat
  item_x : Nat
  exit_l : Nat
  exit_r : Nat
  doors : Fin 3 → door_t
  enemies : Fin 4 → enemy_record_t
  tiles : Nat → Nat → Nat

/-- level_t from level.h, restricted to the parts the simulation reads. -/
structure level_t where
  stages : Fin 3 → stage_t

/-- The mutable global game state shared by physics.cpp, doors.cpp,
level_loader.cpp and main.cpp.  `stage_loads` is an instrumentation counter:
it counts invocations of `load_new_stage` so that theorems can express that
no stage load happened. -/
structure GameState where
  comic_x : Int
  comic_y : Int
  comic_y_vel : Int
  comic_x_momentum : Int
  comic_facing : Nat
  comic_is_falling_or_jumping : Nat
  comic_jump_counter : Nat
  comic_jump_power : Nat
  key_state_jump : Nat
  previous_key_state_jump : Nat
  key_state_left : Nat
  key_state_right : Nat
  key_state_open : Nat
  comic_has_door_key : Nat
  camera_x : Int
  ceiling_stick_flag : Bool
  current_level_number : Nat
  current_stage_number : Nat
  current_level : Option level_t
  source_door_level_number : Int
  source_door_stage_number : Int
  comic_y_checkpoint : Nat
  comic_x_checkpoint : Nat
  ptiles : Nat → Nat → Nat
  tileset_last_passable : Nat
  levels_initialized : Bool
  stage_loads : Nat

/-- get_tile_at from physics.cpp: game units to tile coordinates by /2,
out-of-bounds returns 0 (passable).  Arguments are already uint8 values. -/
def get_tile_at (s : GameState) (x y : Nat) : Nat :=
  if x / 2 ≥ MAP_WIDTH_TILES ∨ y / 2 ≥ MAP_HEIGHT_TILES then 0
  else s.ptiles (x / 2) (y / 2)

/-- is_tile_solid from physics.cpp: tile ids above the threshold are solid. -/
def is_tile_solid (s : GameState) (tile_id : Nat) : Bool :=
  s.tileset_last_passable < tile_id

/-- process_jump_input from physics.cpp. -/
def process_jump_input (s : GameState) : GameState :=
  let s1 :=
    if s.comic_is_falling_or_jumping = 0 ∧ s.key_state_jump ≠ 0 ∧
        s.previous_key_state_jump = 0 ∧
        s.comic_jump_counter = s.comic_jump_power then
      { s with comic_is_falling_or_jumping := 1 }
    else s
  { s1 with previous_key_state_jump := s1.key_state_jump }

/-- The reciprocal-door scan of load_new_stage (level_loader.cpp): first used
door whose target equals the source (level, stage) pair. -/
def find_reciprocal_door (st : stage_t) (lvl stg : Int) : Option door_t :=
  let dmatch : door_t → Bool := fun d =>
    decide (d.x ≠ 255) && decide (d.y ≠ 255) &&
    decide ((d.target_level : Int) = lvl) && decide ((d.target_stage : Int) = stg)
  if dmatch (st.doors 0) then some (st.doors 0)
  else if dmatch (st.doors 1) then some (st.doors 1)
  else if dmatch (st.doors 2) then some (st.doors 2)
  else none

/-- Clamp the camera to [0, MAP_WIDTH - PLAYFIELD_WIDTH] as in
level_loader.cpp. -/
def clamp_camera (c : Int) : Int :=
  let c1 := if c < 0 then 0 else c
  if c1 > MAP_WIDTH - PLAYFIELD_WIDTH then MAP_WIDTH - PLAYFIELD_WIDTH else c1

/-- load_new_stage from level_loader.cpp.  The tile copy performed by
`load_stage_tiles` (whose definition is not in the sources, only its call) is
Modelled from the spec: the stage-load collaborator must "synchronously
populate current tile grid"; here the current tile grid becomes the stage's
tile function.  The `stage_loads` counter records the invocation. -/
def load_new_stage (s0 : GameState) : GameState :=
  let s := { s0 with stage_loads := s0.stage_loads + 1 }
  if ¬s.levels_initialized then s
  else
    match hl : s.current_level with
    | none => s
    | some lv =>
      if h : 3 ≤ s.current_stage_number then s
      else
        let st := lv.stages ⟨s.current_stage_number, by omega⟩
        let s1 := { s with ptiles := st.tiles }
        if (0 : Int) ≤ s1.source_door_level_number then
          let s2 :=
            match find_reciprocal_door st s1.source_door_level_number
                s1.source_door_stage_number with
            | some d =>
              { s1 with
                comic_x := (d.x : Int) + 1
                comic_y := (d.y : Int)
                comic_y_vel := 0
                camera_x := clamp_camera ((d.x : Int) + 1 - PLAYFIELD_WIDTH / 2) }
            | none => s1
          { s2 with source_door_level_number := -1, source_door_stage_number := -1 }
        else
          { s1 with camera_x := clamp_camera (s1.comic_x - PLAYFIELD_WIDTH / 2) }

/-- move_left from physics.cpp. -/
def move_left (s : GameState) : GameState :=
  if s.comic_x = 0 then
    match s.current_level with
    | none => { s with comic_x_momentum := 0 }
    | some lv =>
      if h : 3 ≤ s.current_stage_number then { s with comic_x_momentum := 0 }
      else
        let st := lv.stages ⟨s.current_stage_number, by omega⟩
        if st.exit_l = 255 then { s with comic_x_momentum := 0 }
        else
          load_new_stage
            { s with
              current_stage_number := st.exit_l
              comic_y_vel := 0
              comic_y_checkpoint := toU8 s.comic_y
              comic_x_checkpoint := toU8 (MAP_WIDTH - 2)
              comic_x := MAP_WIDTH - 2
              source_door_level_number := -1 }
  else
    let new_x := s.comic_x - 1
    let check_y := toU8 (s.comic_y + 3)
    if is_tile_solid s (get_tile_at s (toU8 new_x) check_y) then
      { s with comic_x_momentum := 0 }
    else
      let s1 := { s with comic_x := new_x, comic_facing := 0 }
      let relative_x := s1.comic_x - s1.camera_x
      if 0 < s1.camera_x ∧ relative_x < PLAYFIELD_WIDTH / 2 - 2 then
        { s1 with camera_x := s1.camera_x - 1 }
      else s1

/-- move_right from physics.cpp. -/
def move_right (s : GameState) : GameState :=
  if s.comic_x ≥ MAP_WIDTH - 2 then
    match s.current_level with
    | none => { s with comic_x_momentum := 0 }
    | some lv =>
      if h : 3 ≤ s.current_stage_number then { s with comic_x_momentum := 0 }
      else
        let st := lv.stages ⟨s.current_stage_number, by omega⟩
        if st.exit_r = 255 then { s with comic_x_momentum := 0 }
        else
          load_new_stage
            { s with
              current_stage_number := st.exit_r
              comic_y_vel := 0
              comic_y_checkpoint := toU8 s.comic_y
              comic_x_checkpoint := 0
              comic_x := 0
              source_door_level_number := -1 }
  else
    let new_x := s.comic_x + 1
    let check_y := toU8 (s.comic_y + 3)
    let check_tile_x := new_x + 1
    if is_tile_solid s (get_tile_at s (toU8 check_tile_x) check_y) then
      { s with comic_x_momentum := 0 }
    else
      let s1 := { s with comic_x := new_x, comic_facing := 1 }
      let relative_x := s1.comic_x - s1.camera_x
      if s1.camera_x < MAP_WIDTH - PLAYFIELD_WIDTH ∧ relative_x > PLAYFIELD_WIDTH / 2 then
        { s1 with camera_x := s1.camera_x + 1 }
      else s1

/- handle_fall_or_jump from physics.cpp, split into its commented STEPs.
The airborne branch runs the composition of the steps in source order;
the only early return of the airborne branch is at the very end (landing),
so the composition is exact. -/

/-- STEPs 1-3: decrement the jump counter, clamp it to the sentinel 1 when
expired, otherwise apply upward acceleration while the jump key is held. -/
def hfj_counter (s : GameState) : GameState :=
  let s1 :=
    if 0 < s.comic_jump_counter then
      { s with comic_jump_counter := s.comic_jump_counter - 1 }
    else s
  if s1.comic_jump_counter = 0 then
    { s1 with comic_jump_counter := 1, ceiling_stick_flag := false }
  else if s1.key_state_jump ≠ 0 then
    { s1 with comic_y_vel := i8 (s1.comic_y_vel - JUMP_ACCELERATION) }
  else
    { s1 with ceiling_stick_flag := false }

/-- STEP 4: integrate velocity (`comic_y_vel >> 3`, arithmetic shift), apply
the ceiling-stick push-down, and the fall-too-far bounds check. -/
def hfj_integrate (s : GameState) : GameState :=
  let s1 := { s with comic_y := s.comic_y + sar3 s.comic_y_vel }
  let s2 :=
    if s1.ceiling_stick_flag then
      { s1 with comic_y := s1.comic_y + 1, ceiling_stick_flag := false }
    else s1
  if s2.comic_y ≥ PLAYFIELD_HEIGHT - 3 then
    { s2 with comic_y := 1, comic_y_vel := 0, comic_is_falling_or_jumping := 0 }
  else s2

/-- STEP 5: gravity, then clamp to terminal velocity. -/
def hfj_gravity (s : GameState) : GameState :=
  let v := i8 (s.comic_y_vel + COMIC_GRAVITY)
  { s with comic_y_vel := if v > TERMINAL_VELOCITY then TERMINAL_VELOCITY else v }

/-- STEP 6: mid-air momentum accumulation and drag, converting into
move_left / move_right calls. -/
def hfj_momentum (s : GameState) : GameState :=
  let s1 :=
    if s.key_state_left ≠ 0 then
      let m := i8 (s.comic_x_momentum - 1)
      { s with comic_x_momentum := if m < -5 then -5 else m }
    else s
  let s2 :=
    if s1.key_state_right ≠ 0 then
      let m := i8 (s1.comic_x_momentum + 1)
      { s1 with comic_x_momentum := if m > 5 then 5 else m }
    else s1
  let s3 :=
    if s2.comic_x_momentum < 0 then
      move_left { s2 with comic_x_momentum := i8 (s2.comic_x_momentum + 1) }
    else s2
  if s3.comic_x_momentum > 0 then
    move_right { s3 with comic_x_momentum := i8 (s3.comic_x_momentum - 1) }
  else s3

/-- STEP 7: ceiling collision, only while moving up; probes the head tile and
the odd-x neighbor. -/
def hfj_ceiling (s : GameState) : GameState :=
  if s.comic_y_vel < 0 then
    let head1 := is_tile_solid s (get_tile_at s (toU8 s.comic_x) (toU8 s.comic_y))
    let head_solid :=
      head1 || (decide (s.comic_x % 2 = 1) &&
        is_tile_solid s (get_tile_at s (toU8 (s.comic_x + 1)) (toU8 s.comic_y)))
    if head_solid then { s with ceiling_stick_flag := true, comic_y_vel := 0 }
    else s
  else s

/-- STEP 8: ground collision, only while moving down; probes 5 units below
the head and the odd-x neighbor; on hit snaps to the tile row and lands. -/
def hfj_floor (s : GameState) : GameState :=
  if s.comic_y_vel > 0 then
    let foot_y := toU8 (s.comic_y + 5)
    let foot1 := is_tile_solid s (get_tile_at s (toU8 s.comic_x) foot_y)
    let foot_solid :=
      foot1 || (decide (s.comic_x % 2 = 1) &&
        is_tile_solid s (get_tile_at s (toU8 (s.comic_x + 1)) foot_y))
    if foot_solid then
      { s with
        comic_y := ((foot_y / 2 : Nat) : Int) * 2 - 4
        comic_is_falling_or_jumping := 0
        comic_y_vel := 0
        comic_x_momentum := 0 }
    else s
  else s

/-- The grounded branch of handle_fall_or_jump: recharge the jump counter
while the jump key is up, and start falling when no ground is beneath. -/
def hfj_grounded (s : GameState) : GameState :=
  let s1 :=
    if s.key_state_jump = 0 then
      { s with comic_jump_counter := s.comic_jump_power }
    else s
  let foot_y := toU8 (s1.comic_y + 5)
  let foot1 := is_tile_solid s1 (get_tile_at s1 (toU8 s1.comic_x) foot_y)
  let foot_solid :=
    foot1 || (decide (s1.comic_x % 2 = 1) &&
      is_tile_solid s1 (get_tile_at s1 (toU8 (s1.comic_x + 1)) foot_y))
  if ¬foot_solid then { s1 with comic_is_falling_or_jumping := 1 } else s1

/-- handle_fall_or_jump from physics.cpp. -/
def handle_fall_or_jump (s : GameState) : GameState :=
  if s.comic_is_falling_or_jumping ≠ 0 then
    hfj_floor (hfj_ceiling (hfj_momentum (hfj_gravity (hfj_integrate (hfj_counter s)))))
  else
    hfj_grounded s

/- Door activation from src/src/doors.cpp. -/

/-- The per-door body of the scan loop in check_door_activation (doors.cpp):
the door is used, Comic's y equals the door's y exactly, Comic's x is within
[door.x, door.x+2], and Comic holds the Door Key. -/
def door_slot_activates (s : GameState) (d : door_t) : Bool :=
  decide (d.x ≠ 255) && decide (d.y ≠ 255) &&
  decide (s.comic_y = (d.y : Int)) &&
  decide (0 ≤ s.comic_x - (d.x : Int)) && decide (s.comic_x - (d.x : Int) ≤ 2) &&
  decide (s.comic_has_door_key = 1)

/-- check_door_activation from doors.cpp, as the activation decision: `some i`
means the function returns 1 after calling activate_door on door slot `i` of
the current stage; `none` means it returns 0 and activates nothing. -/
def check_door_activation (s : GameState) : Option (Fin 3) :=
  match s.current_level with
  | none => none
  | some lv =>
    if h : 3 ≤ s.current_stage_number then none
    else if s.key_state_open ≠ 1 then none
    else
      let st := lv.stages ⟨s.current_stage_number, by omega⟩
      if door_slot_activates s (st.doors 0) then some 0
      else if door_slot_activates s (st.doors 1) then some 1
      else if door_slot_activates s (st.doors 2) then some 2
      else none

/- Enemy actor system from src/include/actors.h and src/src/actors.cpp. -/

def ENEMY_STATE_DESPAWNED : Nat := 0
def ENEMY_STATE_SPAWNED : Nat := 1
def ENEMY_STATE_WHITE_SPARK : Nat := 2
def ENEMY_STATE_RED_SPARK : Nat := 8
def DEATH_ANIMATION_LAST_FRAME : Nat := 5
def ENEMY_RESTRAINT_MOVE_THIS_TICK : Nat := 0
def ENEMY_RESTRAINT_SKIP_THIS_TICK : Nat := 1
def ENEMY_RESTRAINT_MOVE_EVERY_TICK : Nat := 2
def ENEMY_DESPAWN_RADIUS : Int := 30
def ENEMY_GRAVITY : Int := 2
def RESPAWN_TIMER_MIN : Nat := 20
def RESPAWN_TIMER_MAX : Nat := 100
def RESPAWN_TIMER_STEP : Nat := 20
def ENEMY_FACING_LEFT : Nat := 0
def ENEMY_FACING_RIGHT : Nat := 5
def ENEMY_BEHAVIOR_BOUNCE : Nat := 1
def ENEMY_BEHAVIOR_LEAP : Nat := 2
def ENEMY_BEHAVIOR_ROLL : Nat := 3
def ENEMY_BEHAVIOR_SEEK : Nat := 4
def ENEMY_BEHAVIOR_SHY : Nat := 5
def ENEMY_BEHAVIOR_UNUSED : Nat := 0x7f
def ENEMY_BEHAVIOR_FAST : Nat := 0x80

/-- Comic facing value for "right": move_right (physics.cpp) sets
comic_facing = 1 and main.cpp documents "1 right, 0 left"; the named
constant's definition is not in the sources. -/
def COMIC_FACING_RIGHT : Nat := 1

/-- Comic facing value for "left" (move_left sets comic_facing = 0). -/
def COMIC_FACING_LEFT : Nat := 0

/-- Modelled from the spec: the Leap behavior's "fixed jump impulse −7".
The constant ENEMY_JUMP_VELOCITY is used in actors.cpp (annotated -7 there)
but its definition is not in the sources. -/
def ENEMY_JUMP_VELOCITY : Int := -7

/-- enemy_t from actors.h (sprite-pointer fields dropped). -/
structure enemy_t where
  y : Nat
  x : Nat
  x_vel : Int
  y_vel : Int
  spawn_timer_and_animation : Nat
  num_animation_frames : Nat
  behavior : Nat
  state : Nat
  facing : Nat
  restraint : Nat
deriving DecidableEq

/-- The ActorSystem state from actors.h (graphics references dropped; the
map dimensions are the constant 128x10 the constructor sets). -/
structure ActorSystem where
  enemies : Fin 4 → enemy_t
  current_tiles : Option (Nat → Nat → Nat)
  tileset_last_passable : Nat
  spawned_this_tick : Nat
  spawn_offset_cycle : Nat
  enemy_respawn_counter_cycle : Nat
  g_comic_x : Nat
  g_comic_y : Nat
  g_comic_facing : Nat
  g_camera_x : Int

/-- ActorSystem::get_tile_at: passable when no tile data, out of bounds, else
the tile byte. -/
def ActorSystem.get_tile_at (a : ActorSystem) (x y : Nat) : Nat :=
  match a.current_tiles with
  | none => 0
  | some f =>
    if x / 2 ≥ MAP_WIDTH_TILES ∨ y / 2 ≥ MAP_HEIGHT_TILES then 0
    else f (x / 2) (y / 2)

/-- ActorSystem::is_tile_solid. -/
def ActorSystem.is_tile_solid (a : ActorSystem) (tile_id : Nat) : Bool :=
  a.tileset_last_passable < tile_id

/-- ActorSystem::check_horizontal_enemy_map_collision: tile at (x,y), plus
(x,y+1) when y is odd. -/
def ActorSystem.hcol (a : ActorSystem) (x y : Nat) : Bool :=
  a.is_tile_solid (a.get_tile_at x y) ||
    (decide (y % 2 = 1) && a.is_tile_solid (a.get_tile_at x (u8 (y + 1))))

/-- ActorSystem::check_vertical_enemy_map_collision: tile at (x,y), plus
(x+1,y) when x is odd. -/
def ActorSystem.vcol (a : ActorSystem) (x y : Nat) : Bool :=
  a.is_tile_solid (a.get_tile_at x y) ||
    (decide (x % 2 = 1) && a.is_tile_solid (a.get_tile_at (u8 (x + 1)) y))

/-- ActorSystem::update_enemy_animation. -/
def update_enemy_animation (e : enemy_t) : enemy_t :=
  if e.num_animation_frames = 0 then e
  else
    let t := u8 (e.spawn_timer_and_animation + 1)
    if t ≥ e.num_animation_frames then { e with spawn_timer_and_animation := 0 }
    else { e with spawn_timer_and_animation := t }

/-- ActorSystem::check_enemy_despawn: beyond the despawn radius the enemy is
returned to Despawned with its timer reseeded from the shared cycle. -/
def ActorSystem.check_enemy_despawn (a : ActorSystem) (e : enemy_t) : enemy_t :=
  let x_diff : Int := (e.x : Int) - (a.g_comic_x : Int)
  if x_diff < -ENEMY_DESPAWN_RADIUS ∨ x_diff > ENEMY_DESPAWN_RADIUS then
    { e with
      state := ENEMY_STATE_DESPAWNED
      spawn_timer_and_animation := a.enemy_respawn_counter_cycle }
  else e

/-- ActorSystem::check_enemy_player_collision. -/
def ActorSystem.check_enemy_player_collision (a : ActorSystem) (e : enemy_t) : enemy_t :=
  let x_diff : Int := (e.x : Int) - (a.g_comic_x : Int)
  let y_diff : Int := (e.y : Int) - (a.g_comic_y : Int)
  if x_diff ≥ -1 ∧ x_diff ≤ 1 ∧ y_diff ≥ 0 ∧ y_diff < 4 then
    { e with state := ENEMY_STATE_RED_SPARK }
  else e

/-- The shared tail of enemy_behavior_leap (actors.cpp): gravity, restraint,
horizontal movement against the proposed vertical position, committing the
vertical position, and the ground check. -/
def ActorSystem.leap_cont (a : ActorSystem) (e0 : enemy_t) (proposed : Nat) : enemy_t :=
  let new_vel := e0.y_vel + ENEMY_GRAVITY
  let e1 := { e0 with y_vel := if new_vel > TERMINAL_VELOCITY then TERMINAL_VELOCITY else new_vel }
  let skip_horizontal := e1.restraint = ENEMY_RESTRAINT_SKIP_THIS_TICK
  let e2 : enemy_t :=
    if e1.restraint = ENEMY_RESTRAINT_SKIP_THIS_TICK then
      { e1 with restraint := ENEMY_RESTRAINT_MOVE_THIS_TICK }
    else if e1.restraint = ENEMY_RESTRAINT_MOVE_THIS_TICK then
      { e1 with restraint := ENEMY_RESTRAINT_SKIP_THIS_TICK }
    else e1
  let e3 : enemy_t :=
    if ¬skip_horizontal then
      if e2.x_vel > 0 then
        if a.hcol (u8 (e2.x + 2)) proposed then { e2 with x_vel := -1 }
        else
          let e := { e2 with x := u8 (e2.x + 1) }
          if (e.x : Int) - a.g_camera_x ≥ PLAYFIELD_WIDTH - 2 then { e with x_vel := -1 }
          else e
      else if e2.x_vel < 0 then
        if e2.x = 0 then { e2 with x_vel := 1 }
        else
          let next_x := e2.x - 1
          if a.hcol next_x proposed then { e2 with x_vel := 1 }
          else
            let e := { e2 with x := next_x }
            if (e.x : Int) - a.g_camera_x ≤ 0 then { e with x_vel := 1 }
            else e
      else e2
    else e2
  let e4 : enemy_t := { e3 with y := proposed }
  if e4.y_vel > 0 ∧ a.vcol e4.x (u8 (e4.y + 3)) then
    { e4 with y := u8 (e4.y + 1) - u8 (e4.y + 1) % 2, y_vel := 0 }
  else e4

/-- ActorSystem::enemy_behavior_leap from actors.cpp. -/
def ActorSystem.enemy_behavior_leap (a : ActorSystem) (e : enemy_t) : enemy_t :=
  if e.y_vel < 0 then
    let delta := sar3 e.y_vel
    let new_y : Int := (e.y : Int) + delta
    let proposed :=
      if new_y < 0 then e.y
      else if a.vcol e.x new_y.toNat then e.y
      else new_y.toNat
    a.leap_cont e proposed
  else if e.y_vel > 0 then
    let vel_over_8 := sar3 e.y_vel
    let new_y := u8 (e.y + vel_over_8.toNat)
    if new_y ≥ (PLAYFIELD_HEIGHT - 2).toNat then
      { e with
        state := ENEMY_STATE_WHITE_SPARK + DEATH_ANIMATION_LAST_FRAME
        y := (PLAYFIELD_HEIGHT - 2).toNat }
    else
      let proposed := if a.vcol e.x (u8 (new_y + 1)) then e.y else new_y
      a.leap_cont e proposed
  else
    if a.vcol e.x (u8 (e.y + 2)) then
      { e with
        x_vel := if a.g_comic_x ≥ e.x then 1 else -1
        y_vel := ENEMY_JUMP_VELOCITY }
    else a.leap_cont e e.y

/-- The part of enemy_behavior_roll after the vertical section (actors.cpp):
restraint, horizontal movement, ground re-check. -/
def ActorSystem.roll_after (a : ActorSystem) (e0 : enemy_t) : enemy_t :=
  if e0.restraint = ENEMY_RESTRAINT_SKIP_THIS_TICK then
    { e0 with restraint := ENEMY_RESTRAINT_MOVE_THIS_TICK }
  else
    let e1 :=
      if e0.restraint = ENEMY_RESTRAINT_MOVE_THIS_TICK then
        { e0 with restraint := ENEMY_RESTRAINT_SKIP_THIS_TICK }
      else e0
    if e1.x_vel = 0 then { e1 with restraint := ENEMY_RESTRAINT_MOVE_THIS_TICK }
    else
      let e2 :=
        if e1.x_vel > 0 then
          if ¬a.hcol (u8 (e1.x + 2)) e1.y then { e1 with x := u8 (e1.x + 1) } else e1
        else
          if e1.x = 0 then { e1 with x_vel := 1 }
          else
            let next_x := e1.x - 1
            if ¬a.hcol next_x e1.y then { e1 with x := next_x } else e1
      if ¬a.vcol e2.x (u8 (e2.y + 3)) then { e2 with y_vel := 1 }
      else { e2 with y_vel := 0 }

/-- ActorSystem::enemy_behavior_roll from actors.cpp. -/
def ActorSystem.enemy_behavior_roll (a : ActorSystem) (e : enemy_t) : enemy_t :=
  if e.y_vel > 0 then
    if e.y + 1 ≥ (PLAYFIELD_HEIGHT - 3).toNat then
      { e with
        state := ENEMY_STATE_WHITE_SPARK + DEATH_ANIMATION_LAST_FRAME
        y := (PLAYFIELD_HEIGHT - 2).toNat }
    else a.roll_after { e with y := u8 (e.y + 1) }
  else
    a.roll_after
      { e with
        x_vel :=
          if e.x < a.g_comic_x then 1
          else if e.x > a.g_comic_x then -1
          else 0 }

/-- ActorSystem::enemy_behavior_bounce from actors.cpp. -/
def ActorSystem.enemy_behavior_bounce (a : ActorSystem) (e0 : enemy_t) : enemy_t :=
  if e0.restraint = ENEMY_RESTRAINT_SKIP_THIS_TICK then
    { e0 with restraint := ENEMY_RESTRAINT_MOVE_THIS_TICK }
  else
    let e1 :=
      if e0.restraint = ENEMY_RESTRAINT_MOVE_THIS_TICK then
        { e0 with restraint := ENEMY_RESTRAINT_SKIP_THIS_TICK }
      else e0
    let e2 : enemy_t :=
      if e1.x_vel > 0 then
        let e := { e1 with facing := ENEMY_FACING_RIGHT }
        if a.hcol (u8 (e.x + 2)) e.y then { e with x_vel := -1 }
        else
          let e := { e with x := u8 (e.x + 1) }
          if (e.x : Int) - a.g_camera_x ≥ PLAYFIELD_WIDTH - 2 then { e with x_vel := -1 }
          else e
      else
        let e := { e1 with facing := ENEMY_FACING_LEFT }
        if e.x = 0 then { e with x_vel := 1 }
        else
          let next_x := e.x - 1
          if a.hcol next_x e.y then { e with x_vel := 1 }
          else
            let e := { e with x := next_x }
            if (e.x : Int) - a.g_camera_x ≤ 0 then { e with x_vel := 1 }
            else e
    if e2.y_vel > 0 then
      if e2.y ≥ (PLAYFIELD_HEIGHT - 2).toNat then { e2 with y_vel := -1 }
      else if a.vcol e2.x (u8 (e2.y + 2)) then { e2 with y_vel := -1 }
      else
        let e := { e2 with y := u8 (e2.y + 1) }
        if e.y ≥ (PLAYFIELD_HEIGHT - 2).toNat then { e with y_vel := -1 }
        else e
    else
      if e2.y = 0 then { e2 with y_vel := 1 }
      else
        let next_y := e2.y - 1
        if a.vcol e2.x next_y then { e2 with y_vel := 1 }
        else
          let e : enemy_t := { e2 with y := next_y }
          if e.y = 0 then { e with y_vel := 1 }
          else e

/-- ActorSystem::enemy_behavior_seek from actors.cpp. -/
def ActorSystem.enemy_behavior_seek (a : ActorSystem) (e0 : enemy_t) : enemy_t :=
  if e0.restraint = ENEMY_RESTRAINT_SKIP_THIS_TICK then
    { e0 with restraint := ENEMY_RESTRAINT_MOVE_THIS_TICK }
  else
    let e1 :=
      if e0.restraint = ENEMY_RESTRAINT_MOVE_THIS_TICK then
        { e0 with restraint := ENEMY_RESTRAINT_SKIP_THIS_TICK }
      else e0
    if e1.x ≠ a.g_comic_x then
      let e2 :=
        if e1.x < a.g_comic_x then
          let next_x := u8 (e1.x + 1)
          if ¬a.hcol (u8 (next_x + 1)) e1.y then { e1 with x := next_x, x_vel := 1 }
          else { e1 with x_vel := -1 }
        else
          if e1.x = 0 then { e1 with x_vel := 1 }
          else
            let next_x := e1.x - 1
            if ¬a.hcol next_x e1.y then { e1 with x := next_x, x_vel := -1 }
            else { e1 with x_vel := 1 }
      { e2 with facing := if e2.x_vel < 0 then ENEMY_FACING_LEFT else ENEMY_FACING_RIGHT }
    else
      let e2 :=
        if e1.y ≠ a.g_comic_y then
          if e1.y < a.g_comic_y then
            let next_y := u8 (e1.y + 1)
            if ¬a.vcol e1.x (u8 (next_y + 1)) then { e1 with y := next_y, y_vel := 1 }
            else { e1 with y_vel := -1 }
          else
            let next_y := e1.y - 1
            if ¬a.vcol e1.x next_y then { e1 with y := next_y, y_vel := -1 }
            else { e1 with y_vel := 1 }
        else e1
      { e2 with facing := if e2.x_vel < 0 then ENEMY_FACING_LEFT else ENEMY_FACING_RIGHT }

/-- ActorSystem::enemy_behavior_shy from actors.cpp. -/
def ActorSystem.enemy_behavior_shy (a : ActorSystem) (e0 : enemy_t) : enemy_t :=
  if e0.restraint = ENEMY_RESTRAINT_SKIP_THIS_TICK then
    { e0 with restraint := ENEMY_RESTRAINT_MOVE_THIS_TICK }
  else
    let e1 :=
      if e0.restraint = ENEMY_RESTRAINT_MOVE_THIS_TICK then
        { e0 with restraint := ENEMY_RESTRAINT_SKIP_THIS_TICK }
      else e0
    let comic_facing_enemy : Bool :=
      (decide (a.g_comic_facing = COMIC_FACING_RIGHT) && decide (e1.x > a.g_comic_x)) ||
      (decide (a.g_comic_facing = COMIC_FACING_LEFT) && decide (e1.x < a.g_comic_x))
    let e2 : enemy_t :=
      if e1.x_vel > 0 then
        let e := { e1 with facing := ENEMY_FACING_RIGHT }
        if a.hcol (u8 (e.x + 2)) e.y then { e with x_vel := -1 }
        else
          let e := { e with x := u8 (e.x + 1) }
          if (e.x : Int) - a.g_camera_x ≥ PLAYFIELD_WIDTH - 2 then { e with x_vel := -1 }
          else e
      else
        let e := { e1 with facing := ENEMY_FACING_LEFT }
        if e.x = 0 then { e with x_vel := 1 }
        else
          let next_x := e.x - 1
          if a.hcol next_x e.y then { e with x_vel := 1 }
          else
            let e := { e with x := next_x }
            if (e.x : Int) - a.g_camera_x ≤ 0 then { e with x_vel := 1 }
            else e
    let e3 : enemy_t :=
      if comic_facing_enemy then { e2 with y_vel := -1 }
      else
        { e2 with
          y_vel :=
            if e2.y < a.g_comic_y then 1
            else if e2.y > a.g_comic_y then -1
            else 0 }
    if e3.y_vel > 0 then
      if a.vcol e3.x (u8 (e3.y + 2)) then { e3 with y_vel := -1 }
      else
        let e := { e3 with y := u8 (e3.y + 1) }
        if e.y ≥ (PLAYFIELD_HEIGHT - 2).toNat then { e with y_vel := -1 }
        else e
    else if e3.y_vel < 0 then
      if e3.y = 0 then { e3 with y_vel := 1 }
      else
        let next_y := e3.y - 1
        if a.vcol e3.x next_y then { e3 with y_vel := 1 }
        else
          let e : enemy_t := { e3 with y := next_y }
          if e.y = 0 then { e with y_vel := 1 }
          else e
    else e3

/-- ActorSystem::handle_single_enemy: behavior dispatch with the fast bit
masked off. -/
def ActorSystem.handle_single_enemy (a : ActorSystem) (e : enemy_t) : enemy_t :=
  let bt := Nat.land e.behavior 0x7f
  if bt = ENEMY_BEHAVIOR_BOUNCE then a.enemy_behavior_bounce e
  else if bt = ENEMY_BEHAVIOR_LEAP then a.enemy_behavior_leap e
  else if bt = ENEMY_BEHAVIOR_ROLL then a.enemy_behavior_roll e
  else if bt = ENEMY_BEHAVIOR_SEEK then a.enemy_behavior_seek e
  else if bt = ENEMY_BEHAVIOR_SHY then a.enemy_behavior_shy e
  else e

/-- ActorSystem::maybe_spawn_enemy from actors.cpp. -/
def ActorSystem.maybe_spawn_enemy (a : ActorSystem) (i : Fin 4) : ActorSystem :=
  if a.spawned_this_tick ≠ 0 then a
  else
    let e := a.enemies i
    if Nat.land e.behavior 0x7f ≥ ENEMY_BEHAVIOR_UNUSED then
      { a with
        enemies := Function.update a.enemies i
          { e with state := ENEMY_STATE_DESPAWNED, spawn_timer_and_animation := 100 } }
    else
      let off1 := u8 (a.spawn_offset_cycle + 2)
      let off := if (off1 : Int) ≥ PLAYFIELD_WIDTH + 7 then PLAYFIELD_WIDTH.toNat else off1
      let spawn_x_temp : Int :=
        if a.g_comic_facing = COMIC_FACING_RIGHT then a.g_camera_x + off
        else a.g_camera_x - ((off : Int) - PLAYFIELD_WIDTH + 2)
      let clamped := if spawn_x_temp < 0 then 0 else if spawn_x_temp > 255 then 255 else spawn_x_temp
      let spawn_x := clamped.toNat
      let y0 := a.g_comic_y
      let spawn_y :=
        if ¬a.is_tile_solid (a.get_tile_at spawn_x y0) then y0
        else
          let y1 := u8 (y0 + 255)
          if ¬a.is_tile_solid (a.get_tile_at spawn_x y1) then y1
          else u8 (y1 + 255)
      let bt := Nat.land e.behavior 0x7f
      let bounce_like := bt = ENEMY_BEHAVIOR_BOUNCE ∨ bt = ENEMY_BEHAVIOR_SHY
      { a with
        spawn_offset_cycle := off
        spawned_this_tick := 1
        enemies := Function.update a.enemies i
          { e with
            x := spawn_x
            y := spawn_y
            state := ENEMY_STATE_SPAWNED
            spawn_timer_and_animation := 0
            x_vel := if bounce_like then -1 else 0
            y_vel := if bounce_like then -1 else 0
            facing := ENEMY_FACING_LEFT
            restraint :=
              if Nat.land e.behavior ENEMY_BEHAVIOR_FAST ≠ 0 then
                ENEMY_RESTRAINT_MOVE_EVERY_TICK
              else ENEMY_RESTRAINT_MOVE_THIS_TICK } }

/-- The respawn-cycle advance performed when a death animation completes:
+= RESPAWN_TIMER_STEP, wrapping back to RESPAWN_TIMER_MIN past
RESPAWN_TIMER_MAX (uint8 arithmetic). -/
def respawn_cycle_next (c : Nat) : Nat :=
  let t := u8 (c + RESPAWN_TIMER_STEP)
  if t > RESPAWN_TIMER_MAX then RESPAWN_TIMER_MIN else t

/-- The body of the per-enemy loop of ActorSystem::update for slot `i`. -/
def ActorSystem.process_slot (a : ActorSystem) (i : Fin 4) : ActorSystem :=
  let e := a.enemies i
  if e.state = ENEMY_STATE_DESPAWNED then
    let e1 :=
      if 0 < e.spawn_timer_and_animation then
        { e with spawn_timer_and_animation := e.spawn_timer_and_animation - 1 }
      else e
    let a1 := { a with enemies := Function.update a.enemies i e1 }
    if e1.spawn_timer_and_animation = 0 then a1.maybe_spawn_enemy i else a1
  else if ENEMY_STATE_WHITE_SPARK ≤ e.state then
    if e.state = ENEMY_STATE_WHITE_SPARK + DEATH_ANIMATION_LAST_FRAME ∨
        e.state = ENEMY_STATE_RED_SPARK + DEATH_ANIMATION_LAST_FRAME then
      { a with
        enemies := Function.update a.enemies i
          { e with
            state := ENEMY_STATE_DESPAWNED
            spawn_timer_and_animation := a.enemy_respawn_counter_cycle }
        enemy_respawn_counter_cycle := respawn_cycle_next a.enemy_respawn_counter_cycle }
    else
      { a with enemies := Function.update a.enemies i { e with state := u8 (e.state + 1) } }
  else if e.state = ENEMY_STATE_SPAWNED then
    let e1 := update_enemy_animation e
    let e2 := a.handle_single_enemy e1
    let e3 := a.check_enemy_despawn e2
    let e4 := a.check_enemy_player_collision e3
    { a with enemies := Function.update a.enemies i e4 }
  else a

/-- ActorSystem::update from actors.cpp: store the per-tick globals, clear
the spawn gate, then run the per-enemy loop over the four slots in order. -/
def ActorSystem.update (a : ActorSystem) (comic_x comic_y comic_facing : Nat)
    (tiles : Option (Nat → Nat → Nat)) (camera_x : Int) : ActorSystem :=
  let a0 :=
    { a with
      g_comic_x := comic_x
      g_comic_y := comic_y
      g_comic_facing := comic_facing
      g_camera_x := camera_x
      current_tiles := tiles
      spawned_this_tick := 0 }
  (((a0.process_slot 0).process_slot 1).process_slot 2).process_slot 3

/- ===================== Test fixtures and claim theorems ===================== -/

/-- An airborne player state over an all-passable tile map, with the jump key
released, the jump counter at the sentinel 1, no horizontal input and the
given vertical velocity; used to observe one position-integration step. -/
def c1_phys_state (v : Int) : GameState :=
  { comic_x := 20, comic_y := 16, comic_y_vel := v, comic_x_momentum := 0,
    comic_facing := 1, comic_is_falling_or_jumping := 1,
    comic_jump_counter := 1, comic_jump_power := 4,
    key_state_jump := 0, previous_key_state_jump := 0,
    key_state_left := 0, key_state_right := 0, key_state_open := 0,
    comic_has_door_key := 0, camera_x := 0, ceiling_stick_flag := false,
    current_level_number := 1, current_stage_number := 0, current_level := none,
    source_door_level_number := -1, source_door_stage_number := -1,
    comic_y_checkpoint := 12, comic_x_checkpoint := 14,
    ptiles := fun _ _ => 0, tileset_last_passable := 0x3F,
    levels_initialized := true, stage_loads := 0 }

/-- A rising Leap enemy over no tile data (everything passable), with no
horizontal velocity and no restraint throttling, at the given vertical
velocity; used to observe one vertical step. -/
def c1_leap_enemy (v : Int) : enemy_t :=
  { y := 16, x := 20, x_vel := 0, y_vel := v, spawn_timer_and_animation := 0,
    num_animation_frames := 4, behavior := ENEMY_BEHAVIOR_LEAP, state := 1,
    facing := 0, restraint := ENEMY_RESTRAINT_MOVE_EVERY_TICK }

/-- An actor system with no tile data loaded: every probe is passable. -/
def c1_actor_sys : ActorSystem :=
  { enemies := fun _ => c1_leap_enemy 0, current_tiles := none,
    tileset_last_passable := 0x3F, spawned_this_tick := 0,
    spawn_offset_cycle := 24, enemy_respawn_counter_cycle := 20,
    g_comic_x := 22, g_comic_y := 10, g_comic_facing := 1, g_camera_x := 0 }

/-- The arithmetic shift by 3 agrees with Euclidean division by 8 (the divisor
is positive). -/
theorem sar3_eq_ediv (v : Int) : sar3 v = v / 8 :=
  Int.fdiv_eq_ediv v (by omega)

/-- The airborne template state shared by the C1 and C2 physics scenarios:
position y, velocity v, jump counter c, jump power p, jump key (with its
previous-state latch) k, over an all-passable map with no horizontal input. -/
def air_state (y v : Int) (c p k : Nat) : GameState :=
  { comic_x := 20, comic_y := y, comic_y_vel := v, comic_x_momentum := 0,
    comic_facing := 1, comic_is_falling_or_jumping := 1,
    comic_jump_counter := c, comic_jump_power := p,
    key_state_jump := k, previous_key_state_jump := k,
    key_state_left := 0, key_state_right := 0, key_state_open := 0,
    comic_has_door_key := 0, camera_x := 0, ceiling_stick_flag := false,
    current_level_number := 1, current_stage_number := 0, current_level := none,
    source_door_level_number := -1, source_door_stage_number := -1,
    comic_y_checkpoint := 12, comic_x_checkpoint := 14,
    ptiles := fun _ _ => 0, tileset_last_passable := 0x3F,
    levels_initialized := true, stage_loads := 0 }

/-- Airborne, so process_jump_input only re-latches the held key. -/
theorem air_process (y v : Int) (c p k : Nat) :
    process_jump_input (air_state y v c p k) = air_state y v c p k := by
  simp [process_jump_input, air_state]

/-- The airborne branch of handle_fall_or_jump is the composition of the
STEP functions. -/
theorem handle_airborne (s : GameState) (h : s.comic_is_falling_or_jumping = 1) :
    handle_fall_or_jump s =
      hfj_floor (hfj_ceiling (hfj_momentum (hfj_gravity
        (hfj_integrate (hfj_counter s))))) := by
  unfold handle_fall_or_jump
  rw [if_pos (by omega)]

/-- STEPs 1-3 with the jump key held and the counter still running: upward
acceleration by 7 and a counter decrement. -/
theorem air_counter_accel (y v : Int) (c p : Nat) (hc : 2 ≤ c)
    (hv1 : -121 ≤ v) (hv2 : v ≤ 134) :
    hfj_counter (air_state y v c p 1) = air_state y (v - 7) (c - 1) p 1 := by
  have h0 : 0 < c := by omega
  have h1 : ¬(c - 1 = 0) := by omega
  have h1' : ¬(c ≤ 1) := by omega
  have hi : i8 (v - 7) = v - 7 := by unfold i8; omega
  simp [hfj_counter, air_state, JUMP_ACCELERATION, h0, h1, h1', hi]

/-- STEPs 1-3 with the counter at the sentinel 1: no acceleration, the
counter is clamped back to 1. -/
theorem air_counter_sentinel (y v : Int) (p k : Nat) :
    hfj_counter (air_state y v 1 p k) = air_state y v 1 p k := by
  simp [hfj_counter, air_state]

/-- STEP 4 while staying above the fall-too-far bound: y moves by v / 8,
the arithmetic-shift (floored) eighth of the velocity. -/
theorem air_integrate (y v : Int) (c p k : Nat) (hy : y + v / 8 ≤ 16) :
    hfj_integrate (air_state y v c p k) = air_state (y + v / 8) v c p k := by
  have hs : sar3 v = v / 8 := sar3_eq_ediv v
  have hd : ¬((17 : Int) ≤ y + v / 8) := by omega
  simp [hfj_integrate, air_state, PLAYFIELD_HEIGHT, hs, hd]

/-- STEP 5 below the terminal-velocity clamp: gravity adds 5. -/
theorem air_gravity (y v : Int) (c p k : Nat) (hv1 : -133 ≤ v) (hv2 : v ≤ 18) :
    hfj_gravity (air_state y v c p k) = air_state y (v + 5) c p k := by
  have hi : i8 (v + 5) = v + 5 := by unfold i8; omega
  have hcl : ¬((23 : Int) < v + 5) := by omega
  simp [hfj_gravity, air_state, COMIC_GRAVITY, TERMINAL_VELOCITY, hi, hcl]

/-- STEP 6 with no horizontal input or momentum: a no-op. -/
theorem air_momentum (y v : Int) (c p k : Nat) :
    hfj_momentum (air_state y v c p k) = air_state y v c p k := by
  simp [hfj_momentum, air_state]

/-- STEP 7 over an all-passable map: no ceiling hit. -/
theorem air_ceiling (y v : Int) (c p k : Nat) :
    hfj_ceiling (air_state y v c p k) = air_state y v c p k := by
  simp [hfj_ceiling, air_state, get_tile_at, is_tile_solid]

/-- STEP 8 over an all-passable map: no floor hit. -/
theorem air_floor (y v : Int) (c p k : Nat) :
    hfj_floor (air_state y v c p k) = air_state y v c p k := by
  simp [hfj_floor, air_state, get_tile_at, is_tile_solid]

/-- Symbolic evaluation of one airborne physics tick of the C1 scenario: with
negative velocity v the player's y moves by exactly v / 8 (floored). -/
theorem c1_phys_eval (v : Int) (hlo : -128 ≤ v) (hhi : v ≤ -1) :
    (handle_fall_or_jump (c1_phys_state v)).comic_y = 16 + v / 8 := by
  rw [show c1_phys_state v = air_state 16 v 1 4 0 from rfl, handle_airborne _ rfl,
      air_counter_sentinel, air_integrate 16 v 1 4 0 (by omega),
      air_gravity (16 + v / 8) v 1 4 0 (by omega) (by omega),
      air_momentum, air_ceiling, air_floor]
  rfl

/-- Symbolic evaluation of one rising Leap step of the C1 scenario: with
negative velocity v the enemy's y moves by exactly v / 8 (floored). -/
theorem c1_leap_eval (v : Int) (hlo : -128 ≤ v) (hhi : v ≤ -1) :
    ((c1_actor_sys.enemy_behavior_leap (c1_leap_enemy v)).y : Int) =
      16 + v / 8 := by
  have hs : sar3 v = v / 8 := sar3_eq_ediv v
  have hb1 : -16 ≤ v / 8 := by omega
  have hb2 : v / 8 ≤ -1 := by omega
  have hneg : v < 0 := by omega
  have hpos : ¬((16 : Int) + v / 8 < 0) := by omega
  have hcl : ¬((23 : Int) < v + 2) := by omega
  simp [ActorSystem.enemy_behavior_leap, ActorSystem.leap_cont,
        ActorSystem.vcol, ActorSystem.hcol, ActorSystem.get_tile_at,
        ActorSystem.is_tile_solid, c1_actor_sys, c1_leap_enemy, ENEMY_GRAVITY,
        TERMINAL_VELOCITY, ENEMY_RESTRAINT_SKIP_THIS_TICK,
        ENEMY_RESTRAINT_MOVE_THIS_TICK, ENEMY_RESTRAINT_MOVE_EVERY_TICK,
        PLAYFIELD_HEIGHT, u8, hs, hneg, hpos, hcl]
  omega

/-- C1 counterexample: the claim says the integration truncates toward zero,
so v = -7 would contribute 0 (y stays 16) and v = -9 would contribute -1
(y becomes 15).  The code's arithmetic shift floors instead: v = -7 moves the
player from y = 16 to y = 15 (contribution -1, not Int.tdiv (-7) 8 = 0), and
v = -9 moves it to y = 14 (contribution -2, not -1); the Leap enemy's
vertical step does the same. -/
theorem c1_truncation_counterexample :
    (handle_fall_or_jump (c1_phys_state (-7))).comic_y = 15 ∧
    (15 : Int) ≠ 16 + Int.tdiv (-7) 8 ∧
    (handle_fall_or_jump (c1_phys_state (-9))).comic_y = 14 ∧
    (14 : Int) ≠ 16 + Int.tdiv (-9) 8 ∧
    (c1_actor_sys.enemy_behavior_leap (c1_leap_enemy (-7))).y = 15 ∧
    (c1_actor_sys.enemy_behavior_leap (c1_leap_enemy (-9))).y = 14 := by
  have h7 := c1_phys_eval (-7) (by omega) (by omega)
  have h9 := c1_phys_eval (-9) (by omega) (by omega)
  have l7 := c1_leap_eval (-7) (by omega) (by omega)
  have l9 := c1_leap_eval (-9) (by omega) (by omega)
  refine ⟨by rw [h7]; decide, by decide, by rw [h9]; decide, by decide,
          by omega, by omega⟩

/-- C1 (amended): on an airborne tick with negative vertical velocity v, the
position integration in handle_fall_or_jump adds `Int.fdiv v 8` to y — the
arithmetic-shift result, floored toward negative infinity, so v = -7
contributes -1 and v = -9 contributes -2 — and the Leap enemy's vertical
step (y_vel >> 3) in enemy_behavior_leap follows the same floor rule. -/
theorem c1_integration_floors (v : Int) (hlo : -128 ≤ v) (hhi : v ≤ -1) :
    (handle_fall_or_jump (c1_phys_state v)).comic_y = 16 + Int.fdiv v 8 ∧
    ((c1_actor_sys.enemy_behavior_leap (c1_leap_enemy v)).y : Int) =
      16 + Int.fdiv v 8 ∧
    Int.fdiv (-7) 8 = -1 ∧ Int.fdiv (-9) 8 = -2 := by
  have he : Int.fdiv v 8 = v / 8 := Int.fdiv_eq_ediv v (by omega)
  exact ⟨by rw [he]; exact c1_phys_eval v hlo hhi,
         by rw [he]; exact c1_leap_eval v hlo hhi,
         by decide, by decide⟩

/-- Witness for c1_integration_floors at v = -7. -/
theorem c1_integration_floors_witness :
    (handle_fall_or_jump (c1_phys_state (-7))).comic_y = 16 + Int.fdiv (-7) 8 :=
  (c1_integration_floors (-7) (by decide) (by decide)).1

/-- Launch state for the jump-apex claim: grounded, jump counter equal to
jump power, the jump key pressed this tick (edge), no horizontal input, over
an all-passable tile map (no ceiling above the rising player). -/
def c2_start (y0 : Int) (power : Nat) : GameState :=
  { comic_x := 20, comic_y := y0, comic_y_vel := 0, comic_x_momentum := 0,
    comic_facing := 1, comic_is_falling_or_jumping := 0,
    comic_jump_counter := power, comic_jump_power := power,
    key_state_jump := 1, previous_key_state_jump := 0,
    key_state_left := 0, key_state_right := 0, key_state_open := 0,
    comic_has_door_key := 0, camera_x := 0, ceiling_stick_flag := false,
    current_level_number := 1, current_stage_number := 0, current_level := none,
    source_door_level_number := -1, source_door_stage_number := -1,
    comic_y_checkpoint := 12, comic_x_checkpoint := 14,
    ptiles := fun _ _ => 0, tileset_last_passable := 0x3F,
    levels_initialized := true, stage_loads := 0 }

/-- One main-loop tick of the jump scenario (main.cpp): process_jump_input
then handle_fall_or_jump, with the jump key held throughout. -/
def c2_tick (s : GameState) : GameState :=
  handle_fall_or_jump (process_jump_input s)

/-- The jump scenario after n ticks. -/
def c2_run (y0 : Int) (power : Nat) : Nat → GameState
  | 0 => c2_start y0 power
  | n + 1 => c2_tick (c2_run y0 power n)

/-- The launch tick's jump-input step: the grounded state with the jump key
newly pressed goes airborne with the key latched. -/
theorem air_launch (y : Int) (p : Nat) :
    process_jump_input (c2_start y p) = air_state y 0 p p 1 := by
  simp [process_jump_input, c2_start, air_state]

/-- The launch tick: the grounded state with the jump key newly pressed goes
airborne, accelerates to velocity -7, integrates one unit upward, and gravity
leaves velocity -2 with the counter decremented. -/
theorem c2_tick_launch (y y' : Int) (c' p : Nat) (hp : 2 ≤ p) (hy : y ≤ 16)
    (hy' : y' = y - 1) (hc' : c' = p - 1) :
    c2_tick (c2_start y p) = air_state y' (-2) c' p 1 := by
  subst hy' hc'
  rw [show c2_tick (c2_start y p) =
        handle_fall_or_jump (process_jump_input (c2_start y p)) from rfl,
      air_launch, handle_airborne _ rfl,
      air_counter_accel y 0 p p hp (by omega) (by omega),
      air_integrate y (0 - 7) (p - 1) p 1 (by omega),
      air_gravity (y + (0 - 7) / 8) (0 - 7) (p - 1) p 1 (by omega) (by omega),
      air_momentum, air_ceiling, air_floor,
      show y + (0 - 7 : Int) / 8 = y - 1 from by omega,
      show (0 : Int) - 7 + 5 = -2 from by omega]

/-- A mid-jump tick with the counter still running (c at least 2) and the jump
key held: the player accelerates by -7, moves by (v - 7) / 8, and gravity
brings the velocity to v - 2 with the counter decremented. -/
theorem c2_tick_accel (y v y' v' : Int) (c c' p : Nat) (hc : 2 ≤ c)
    (hv1 : -121 ≤ v) (hv2 : v ≤ 0) (hy : y' ≤ 16)
    (hy' : y' = y + (v - 7) / 8) (hv' : v' = v - 2) (hc' : c' = c - 1) :
    c2_tick (air_state y v c p 1) = air_state y' v' c' p 1 := by
  subst hy' hv' hc'
  rw [show c2_tick (air_state y v c p 1) =
        handle_fall_or_jump (process_jump_input (air_state y v c p 1)) from rfl,
      air_process, handle_airborne _ rfl,
      air_counter_accel y v c p hc (by omega) (by omega),
      air_integrate y (v - 7) (c - 1) p 1 (by omega),
      air_gravity (y + (v - 7) / 8) (v - 7) (c - 1) p 1 (by omega) (by omega),
      air_momentum, air_ceiling, air_floor,
      show v - 7 + 5 = v - 2 from by omega]

/-- A mid-jump tick with the counter at the sentinel value 1: no acceleration,
the player moves by v / 8, and gravity brings the velocity to v + 5 with the
counter back at the sentinel. -/
theorem c2_tick_sentinel (y v y' v' : Int) (p : Nat)
    (hv1 : -128 ≤ v) (hv2 : v ≤ 18) (hy : y' ≤ 16)
    (hy' : y' = y + v / 8) (hv' : v' = v + 5) :
    c2_tick (air_state y v 1 p 1) = air_state y' v' 1 p 1 := by
  subst hy' hv'
  rw [show c2_tick (air_state y v 1 p 1) =
        handle_fall_or_jump (process_jump_input (air_state y v 1 p 1)) from rfl,
      air_process, handle_airborne _ rfl, air_counter_sentinel,
      air_integrate y v 1 p 1 (by omega),
      air_gravity (y + v / 8) v 1 p 1 (by omega) (by omega),
      air_momentum, air_ceiling, air_floor]

/-- C2: launching a jump from a grounded state with the jump key pressed on
that tick and held thereafter, no left/right input and nothing solid above,
the minimum y before descent resumes is exactly 7 game units above the launch
y with jump power 4 (reached on tick 5, never undershot through tick 8, with
downward velocity restored by tick 6), and exactly 9 units with jump
power 5 (reached on tick 6, never undershot through tick 10). -/
theorem c2_jump_apex (y0 : Int) (h0 : 0 ≤ y0) (h1 : y0 ≤ 16) :
    ((c2_run y0 4 5).comic_y = y0 - 7 ∧
      (∀ n, n ≤ 8 → y0 - 7 ≤ (c2_run y0 4 n).comic_y) ∧
      (c2_run y0 4 6).comic_y_vel > 0) ∧
    ((c2_run y0 5 6).comic_y = y0 - 9 ∧
      (∀ n, n ≤ 10 → y0 - 9 ≤ (c2_run y0 5 n).comic_y) ∧
      (c2_run y0 5 7).comic_y_vel > 0) := by
  have r1 : c2_run y0 4 1 = air_state (y0 - 1) (-2) 3 4 1 := by
    rw [show c2_run y0 4 1 = c2_tick (c2_run y0 4 0) from rfl,
        show c2_run y0 4 0 = c2_start y0 4 from rfl]
    exact c2_tick_launch y0 (y0 - 1) 3 4 (by omega) h1 (by omega) (by omega)
  have r2 : c2_run y0 4 2 = air_state (y0 - 3) (-4) 2 4 1 := by
    rw [show c2_run y0 4 2 = c2_tick (c2_run y0 4 1) from rfl, r1]
    exact c2_tick_accel (y0 - 1) (-2) (y0 - 3) (-4) 3 2 4 (by omega) (by omega)
      (by omega) (by omega) (by omega) (by omega) (by omega)
  have r3 : c2_run y0 4 3 = air_state (y0 - 5) (-6) 1 4 1 := by
    rw [show c2_run y0 4 3 = c2_tick (c2_run y0 4 2) from rfl, r2]
    exact c2_tick_accel (y0 - 3) (-4) (y0 - 5) (-6) 2 1 4 (by omega) (by omega)
      (by omega) (by omega) (by omega) (by omega) (by omega)
  have r4 : c2_run y0 4 4 = air_state (y0 - 6) (-1) 1 4 1 := by
    rw [show c2_run y0 4 4 = c2_tick (c2_run y0 4 3) from rfl, r3]
    exact c2_tick_sentinel (y0 - 5) (-6) (y0 - 6) (-1) 4 (by omega) (by omega)
      (by omega) (by omega) (by omega)
  have r5 : c2_run y0 4 5 = air_state (y0 - 7) 4 1 4 1 := by
    rw [show c2_run y0 4 5 = c2_tick (c2_run y0 4 4) from rfl, r4]
    exact c2_tick_sentinel (y0 - 6) (-1) (y0 - 7) 4 4 (by omega) (by omega)
      (by omega) (by omega) (by omega)
  have r6 : c2_run y0 4 6 = air_state (y0 - 7) 9 1 4 1 := by
    rw [show c2_run y0 4 6 = c2_tick (c2_run y0 4 5) from rfl, r5]
    exact c2_tick_sentinel (y0 - 7) 4 (y0 - 7) 9 4 (by omega) (by omega)
      (by omega) (by omega) (by omega)
  have r7 : c2_run y0 4 7 = air_state (y0 - 6) 14 1 4 1 := by
    rw [show c2_run y0 4 7 = c2_tick (c2_run y0 4 6) from rfl, r6]
    exact c2_tick_sentinel (y0 - 7) 9 (y0 - 6) 14 4 (by omega) (by omega)
      (by omega) (by omega) (by omega)
  have r8 : c2_run y0 4 8 = air_state (y0 - 5) 19 1 4 1 := by
    rw [show c2_run y0 4 8 = c2_tick (c2_run y0 4 7) from rfl, r7]
    exact c2_tick_sentinel (y0 - 6) 14 (y0 - 5) 19 4 (by omega) (by omega)
      (by omega) (by omega) (by omega)
  have q1 : c2_run y0 5 1 = air_state (y0 - 1) (-2) 4 5 1 := by
    rw [show c2_run y0 5 1 = c2_tick (c2_run y0 5 0) from rfl,
        show c2_run y0 5 0 = c2_start y0 5 from rfl]
    exact c2_tick_launch y0 (y0 - 1) 4 5 (by omega) h1 (by omega) (by omega)
  have q2 : c2_run y0 5 2 = air_state (y0 - 3) (-4) 3 5 1 := by
    rw [show c2_run y0 5 2 = c2_tick (c2_run y0 5 1) from rfl, q1]
    exact c2_tick_accel (y0 - 1) (-2) (y0 - 3) (-4) 4 3 5 (by omega) (by omega)
      (by omega) (by omega) (by omega) (by omega) (by omega)
  have q3 : c2_run y0 5 3 = air_state (y0 - 5) (-6) 2 5 1 := by
    rw [show c2_run y0 5 3 = c2_tick (c2_run y0 5 2) from rfl, q2]
    exact c2_tick_accel (y0 - 3) (-4) (y0 - 5) (-6) 3 2 5 (by omega) (by omega)
      (by omega) (by omega) (by omega) (by omega) (by omega)
  have q4 : c2_run y0 5 4 = air_state (y0 - 7) (-8) 1 5 1 := by
    rw [show c2_run y0 5 4 = c2_tick (c2_run y0 5 3) from rfl, q3]
    exact c2_tick_accel (y0 - 5) (-6) (y0 - 7) (-8) 2 1 5 (by omega) (by omega)
      (by omega) (by omega) (by omega) (by omega) (by omega)
  have q5 : c2_run y0 5 5 = air_state (y0 - 8) (-3) 1 5 1 := by
    rw [show c2_run y0 5 5 = c2_tick (c2_run y0 5 4) from rfl, q4]
    exact c2_tick_sentinel (y0 - 7) (-8) (y0 - 8) (-3) 5 (by omega) (by omega)
      (by omega) (by omega) (by omega)
  have q6 : c2_run y0 5 6 = air_state (y0 - 9) 2 1 5 1 := by
    rw [show c2_run y0 5 6 = c2_tick (c2_run y0 5 5) from rfl, q5]
    exact c2_tick_sentinel (y0 - 8) (-3) (y0 - 9) 2 5 (by omega) (by omega)
      (by omega) (by omega) (by omega)
  have q7 : c2_run y0 5 7 = air_state (y0 - 9) 7 1 5 1 := by
    rw [show c2_run y0 5 7 = c2_tick (c2_run y0 5 6) from rfl, q6]
    exact c2_tick_sentinel (y0 - 9) 2 (y0 - 9) 7 5 (by omega) (by omega)
      (by omega) (by omega) (by omega)
  have q8 : c2_run y0 5 8 = air_state (y0 - 9) 12 1 5 1 := by
    rw [show c2_run y0 5 8 = c2_tick (c2_run y0 5 7) from rfl, q7]
    exact c2_tick_sentinel (y0 - 9) 7 (y0 - 9) 12 5 (by omega) (by omega)
      (by omega) (by omega) (by omega)
  have q9 : c2_run y0 5 9 = air_state (y0 - 8) 17 1 5 1 := by
    rw [show c2_run y0 5 9 = c2_tick (c2_run y0 5 8) from rfl, q8]
    exact c2_tick_sentinel (y0 - 9) 12 (y0 - 8) 17 5 (by omega) (by omega)
      (by omega) (by omega) (by omega)
  have q10 : c2_run y0 5 10 = air_state (y0 - 6) 22 1 5 1 := by
    rw [show c2_run y0 5 10 = c2_tick (c2_run y0 5 9) from rfl, q9]
    exact c2_tick_sentinel (y0 - 8) 17 (y0 - 6) 22 5 (by omega) (by omega)
      (by omega) (by omega) (by omega)
  refine ⟨⟨?_, ?_, ?_⟩, ?_, ?_, ?_⟩
  · simp only [r5, air_state]
  · intro n hn
    interval_cases n <;>
      simp only [show c2_run y0 4 0 = c2_start y0 4 from rfl, r1, r2, r3, r4,
        r5, r6, r7, r8, air_state, c2_start] <;> omega
  · simp only [r6, air_state]
    decide
  · simp only [q6, air_state]
  · intro n hn
    interval_cases n <;>
      simp only [show c2_run y0 5 0 = c2_start y0 5 from rfl, q1, q2, q3, q4,
        q5, q6, q7, q8, q9, q10, air_state, c2_start] <;> omega
  · simp only [q7, air_state]
    decide

/-- Witness for c2_jump_apex at launch y = 12. -/
theorem c2_jump_apex_witness :
    (c2_run 12 4 5).comic_y = 12 - 7 ∧ (c2_run 12 5 6).comic_y = 12 - 9 :=
  ⟨(c2_jump_apex 12 (by decide) (by decide)).1.1,
   (c2_jump_apex 12 (by decide) (by decide)).2.1⟩

/- Helper lemmas about the per-slot update. -/

/-- maybe_spawn_enemy only writes enemy slot i. -/
theorem maybe_spawn_enemy_ne (a : ActorSystem) (i j : Fin 4) (h : j ≠ i) :
    (a.maybe_spawn_enemy i).enemies j = a.enemies j := by
  simp only [ActorSystem.maybe_spawn_enemy]
  simp only [apply_ite (fun s : ActorSystem => s.enemies j)]
  simp [Function.update_noteq h]

/-- process_slot only writes enemy slot i. -/
theorem process_slot_ne (a : ActorSystem) (i j : Fin 4) (h : j ≠ i) :
    (a.process_slot i).enemies j = a.enemies j := by
  simp only [ActorSystem.process_slot]
  simp only [apply_ite (fun s : ActorSystem => s.enemies j)]
  simp [maybe_spawn_enemy_ne _ _ _ h, Function.update_noteq h]

/-- A slot sitting on the final sub-frame of either death animation is
despawned by its process_slot step. -/
theorem process_slot_spark_final_state (a : ActorSystem) (i : Fin 4)
    (h : (a.enemies i).state = ENEMY_STATE_WHITE_SPARK + DEATH_ANIMATION_LAST_FRAME ∨
      (a.enemies i).state = ENEMY_STATE_RED_SPARK + DEATH_ANIMATION_LAST_FRAME) :
    ((a.process_slot i).enemies i).state = ENEMY_STATE_DESPAWNED := by
  rcases h with h | h <;>
    simp [ActorSystem.process_slot, h, ENEMY_STATE_WHITE_SPARK,
      ENEMY_STATE_RED_SPARK, DEATH_ANIMATION_LAST_FRAME, ENEMY_STATE_DESPAWNED,
      Function.update_same]

/-- C6: the despawn-by-distance check despawns a spawned enemy if and only if
the absolute horizontal distance to the player exceeds 30; within the radius
it leaves the enemy entirely unchanged, and beyond it the slot is despawned
with its timer reseeded from the shared respawn cycle. -/
theorem c6_despawn_by_distance (a : ActorSystem) (e : enemy_t)
    (hspawned : e.state = ENEMY_STATE_SPAWNED) :
    ((a.check_enemy_despawn e).state = ENEMY_STATE_DESPAWNED ↔
      30 < ((e.x : Int) - (a.g_comic_x : Int)).natAbs) ∧
    (¬30 < ((e.x : Int) - (a.g_comic_x : Int)).natAbs →
      a.check_enemy_despawn e = e) ∧
    (30 < ((e.x : Int) - (a.g_comic_x : Int)).natAbs →
      (a.check_enemy_despawn e).state = ENEMY_STATE_DESPAWNED ∧
      (a.check_enemy_despawn e).spawn_timer_and_animation =
        a.enemy_respawn_counter_cycle) := by
  have hd : ((e.x : Int) - (a.g_comic_x : Int) < -ENEMY_DESPAWN_RADIUS ∨
      (e.x : Int) - (a.g_comic_x : Int) > ENEMY_DESPAWN_RADIUS) ↔
      30 < ((e.x : Int) - (a.g_comic_x : Int)).natAbs := by
    unfold ENEMY_DESPAWN_RADIUS
    omega
  simp only [ActorSystem.check_enemy_despawn]
  split_ifs with h
  · exact ⟨⟨fun _ => hd.mp h, fun _ => rfl⟩,
      fun hn => absurd (hd.mp h) hn, fun _ => ⟨rfl, rfl⟩⟩
  · have hn : ¬30 < ((e.x : Int) - (a.g_comic_x : Int)).natAbs :=
      fun hc => h (hd.mpr hc)
    refine ⟨?_, fun _ => rfl, fun hc => absurd hc hn⟩
    rw [hspawned]
    simp only [ENEMY_STATE_SPAWNED, ENEMY_STATE_DESPAWNED]
    omega

/-- Witness for c6_despawn_by_distance: a spawned enemy at the player's exact
x stays spawned, at distance exactly 30 stays spawned, and at distance 35 is
despawned with its timer taken from the shared cycle. -/
theorem c6_despawn_by_distance_witness :
    (c1_actor_sys.check_enemy_despawn { c1_leap_enemy 0 with x := 22 } =
      { c1_leap_enemy 0 with x := 22 }) ∧
    (c1_actor_sys.check_enemy_despawn { c1_leap_enemy 0 with x := 52 } =
      { c1_leap_enemy 0 with x := 52 }) ∧
    ((c1_actor_sys.check_enemy_despawn { c1_leap_enemy 0 with x := 57 }).state =
      ENEMY_STATE_DESPAWNED ∧
     (c1_actor_sys.check_enemy_despawn
        { c1_leap_enemy 0 with x := 57 }).spawn_timer_and_animation =
      c1_actor_sys.enemy_respawn_counter_cycle) :=
  ⟨(c6_despawn_by_distance c1_actor_sys _ (by decide)).2.1 (by decide),
   (c6_despawn_by_distance c1_actor_sys _ (by decide)).2.1 (by decide),
   (c6_despawn_by_distance c1_actor_sys _ (by decide)).2.2 (by decide)⟩

/-- C7: in enemy_behavior_leap with zero vertical velocity, a solid probe two
units below starts a leap — horizontal velocity toward the player (+1 when
comic_x ≥ enemy x, else -1), vertical velocity -7, everything else (position
included) untouched, returning before gravity, horizontal movement and the
ground check; with that probe passable the function instead falls through to
the shared tail, whose gravity makes the vertical velocity 0 + 2 = 2 that
same tick (observable directly when no horizontal motion or landing
intervenes). -/
theorem c7_leap_zero_velocity (a : ActorSystem) (e : enemy_t) :
    (e.y_vel = 0 → a.vcol e.x (u8 (e.y + 2)) = true →
      a.enemy_behavior_leap e =
        { e with
          x_vel := if a.g_comic_x ≥ e.x then 1 else -1
          y_vel := ENEMY_JUMP_VELOCITY } ∧
      ENEMY_JUMP_VELOCITY = -7) ∧
    (e.y_vel = 0 → a.vcol e.x (u8 (e.y + 2)) = false →
      a.enemy_behavior_leap e = a.leap_cont e e.y ∧
      (e.x_vel = 0 → a.vcol e.x (u8 (e.y + 3)) = false →
        (a.enemy_behavior_leap e).y_vel = 2)) := by
  constructor
  · intro h0 hsolid
    refine ⟨?_, rfl⟩
    unfold ActorSystem.enemy_behavior_leap
    rw [h0]
    simp [hsolid]
  · intro h0 hpass
    have hmain : a.enemy_behavior_leap e = a.leap_cont e e.y := by
      unfold ActorSystem.enemy_behavior_leap
      rw [h0]
      simp [hpass]
    refine ⟨hmain, fun hxv hnog => ?_⟩
    rw [hmain]
    by_cases hr1 : e.restraint = ENEMY_RESTRAINT_SKIP_THIS_TICK
    all_goals
      try simp only [ENEMY_RESTRAINT_SKIP_THIS_TICK] at hr1
    · simp [ActorSystem.leap_cont, h0, hxv, hnog, hr1, ENEMY_GRAVITY,
        TERMINAL_VELOCITY, ENEMY_RESTRAINT_SKIP_THIS_TICK,
        ENEMY_RESTRAINT_MOVE_THIS_TICK]
    · by_cases hr2 : e.restraint = ENEMY_RESTRAINT_MOVE_THIS_TICK
      all_goals
        try simp only [ENEMY_RESTRAINT_MOVE_THIS_TICK] at hr2
      · simp [ActorSystem.leap_cont, h0, hxv, hnog, hr1, hr2, ENEMY_GRAVITY,
          TERMINAL_VELOCITY, ENEMY_RESTRAINT_SKIP_THIS_TICK,
          ENEMY_RESTRAINT_MOVE_THIS_TICK]
      · simp [ActorSystem.leap_cont, h0, hxv, hnog, hr1, hr2, ENEMY_GRAVITY,
          TERMINAL_VELOCITY, ENEMY_RESTRAINT_SKIP_THIS_TICK,
          ENEMY_RESTRAINT_MOVE_THIS_TICK]

/-- The actor system of c1_actor_sys over a map whose tile row 9 is solid:
an enemy at y = 16 has solid ground two units below (game y 18). -/
def c1_ground_sys : ActorSystem :=
  { c1_actor_sys with
    current_tiles := some (fun _ ty => if ty = 9 then 0x40 else 0) }

/-- Witness for c7_leap_zero_velocity: with solid ground two units below a
grounded-leaper begins a leap toward the player; over an empty map the same
enemy instead gets gravity applied the same tick. -/
theorem c7_leap_zero_velocity_witness :
    (c1_ground_sys.enemy_behavior_leap (c1_leap_enemy 0) =
      { c1_leap_enemy 0 with x_vel := 1, y_vel := ENEMY_JUMP_VELOCITY }) ∧
    ((c1_actor_sys.enemy_behavior_leap (c1_leap_enemy 0)).y_vel = 2) := by
  constructor
  · have h := ((c7_leap_zero_velocity c1_ground_sys (c1_leap_enemy 0)).1
      (by decide) (by decide)).1
    rw [h]
    decide
  · exact ((c7_leap_zero_velocity c1_actor_sys (c1_leap_enemy 0)).2
      (by decide) (by decide)).2 (by decide) (by decide)

/-- C10: a Leap enemy whose downward step reaches playfield_height - 2 (and a
falling Roll enemy whose y + 1 reaches playfield_height - 3) is put directly
on the final White-Spark sub-frame with y = playfield_height - 2, and a slot
sitting on that final sub-frame is despawned by the very next
ActorSystem::update call. -/
theorem c10_bottom_despawn :
    (∀ (a : ActorSystem) (e : enemy_t), e.y_vel > 0 →
      (PLAYFIELD_HEIGHT - 2).toNat ≤ u8 (e.y + (sar3 e.y_vel).toNat) →
      a.enemy_behavior_leap e =
        { e with
          state := ENEMY_STATE_WHITE_SPARK + DEATH_ANIMATION_LAST_FRAME
          y := (PLAYFIELD_HEIGHT - 2).toNat }) ∧
    (∀ (a : ActorSystem) (e : enemy_t), e.y_vel > 0 →
      (PLAYFIELD_HEIGHT - 3).toNat ≤ e.y + 1 →
      a.enemy_behavior_roll e =
        { e with
          state := ENEMY_STATE_WHITE_SPARK + DEATH_ANIMATION_LAST_FRAME
          y := (PLAYFIELD_HEIGHT - 2).toNat }) ∧
    (∀ (a : ActorSystem) (i : Fin 4) (cx cy cf : Nat)
        (tiles : Option (Nat → Nat → Nat)) (cam : Int),
      (a.enemies i).state = ENEMY_STATE_WHITE_SPARK + DEATH_ANIMATION_LAST_FRAME →
      ((a.update cx cy cf tiles cam).enemies i).state = ENEMY_STATE_DESPAWNED) := by
  refine ⟨?_, ?_, ?_⟩
  · intro a e hv hbot
    unfold ActorSystem.enemy_behavior_leap
    have hv1 : ¬e.y_vel < 0 := by omega
    simp [hv1, hv, hbot]
  · intro a e hv hbot
    unfold ActorSystem.enemy_behavior_roll
    simp [hv, hbot]
  · intro a i cx cy cf tiles cam h
    simp only [ActorSystem.update]
    by_cases h0 : i = 0
    · subst h0
      rw [process_slot_ne _ 3 0 (by decide), process_slot_ne _ 2 0 (by decide),
        process_slot_ne _ 1 0 (by decide)]
      exact process_slot_spark_final_state _ 0 (Or.inl h)
    · by_cases h1 : i = 1
      · subst h1
        rw [process_slot_ne _ 3 1 (by decide), process_slot_ne _ 2 1 (by decide)]
        refine process_slot_spark_final_state _ 1 (Or.inl ?_)
        rw [process_slot_ne _ 0 1 (by decide)]
        exact h
      · by_cases h2 : i = 2
        · subst h2
          rw [process_slot_ne _ 3 2 (by decide)]
          refine process_slot_spark_final_state _ 2 (Or.inl ?_)
          rw [process_slot_ne _ 1 2 (by decide), process_slot_ne _ 0 2 (by decide)]
          exact h
        · have h3 : i = 3 := by
            obtain ⟨iv, hv⟩ := i
            simp only [Fin.ext_iff] at h0 h1 h2 ⊢
            omega
          subst h3
          refine process_slot_spark_final_state _ 3 (Or.inl ?_)
          rw [process_slot_ne _ 2 3 (by decide), process_slot_ne _ 1 3 (by decide),
            process_slot_ne _ 0 3 (by decide)]
          exact h

/-- An actor system whose slot 0 sits on the final White-Spark sub-frame and
whose other slots are despawned with nonzero timers. -/
def c10_spark_sys : ActorSystem :=
  { c1_actor_sys with
    enemies := fun i =>
      if i = 0 then { c1_leap_enemy 0 with state := 7 }
      else { c1_leap_enemy 0 with state := 0, spawn_timer_and_animation := 50 } }

/-- Witness for c10_bottom_despawn: a Leap enemy at y = 16 falling with
velocity 16 steps to 18 and is set to the final White-Spark sub-frame; a Roll
enemy at y = 16 falling does the same; a slot on that sub-frame despawns on
the next update. -/
theorem c10_bottom_despawn_witness :
    ((c1_actor_sys.enemy_behavior_leap { c1_leap_enemy 16 with y := 16 }).state = 7 ∧
      (c1_actor_sys.enemy_behavior_leap { c1_leap_enemy 16 with y := 16 }).y = 18) ∧
    ((c1_actor_sys.enemy_behavior_roll { c1_leap_enemy 1 with y := 16 }).state = 7 ∧
      (c1_actor_sys.enemy_behavior_roll { c1_leap_enemy 1 with y := 16 }).y = 18) ∧
    ((c10_spark_sys.update 22 10 1 none 0).enemies 0).state = 0 := by
  refine ⟨?_, ?_, ?_⟩
  · rw [c10_bottom_despawn.1 c1_actor_sys _ (by decide) (by decide)]
    exact ⟨rfl, rfl⟩
  · rw [c10_bottom_despawn.2.1 c1_actor_sys _ (by decide) (by decide)]
    exact ⟨rfl, rfl⟩
  · exact c10_bottom_despawn.2.2 c10_spark_sys 0 22 10 1 none 0 (by decide)

/-- Two simultaneous completed deaths drawing from the shared cycle: slot 0
on the final White-Spark sub-frame, slot 1 on the final Red-Spark sub-frame,
the shared respawn-cycle counter at 60. -/
def c5_two_deaths_sys : ActorSystem :=
  { c1_actor_sys with
    enemy_respawn_counter_cycle := 60
    enemies := fun i =>
      if i = 0 then { c1_leap_enemy 0 with state := 7 }
      else if i = 1 then { c1_leap_enemy 0 with state := 13 }
      else { c1_leap_enemy 0 with state := 0, spawn_timer_and_animation := 50 } }

/-- C5: when a death animation reaches its final sub-frame (White-Spark or
Red-Spark base + 5), the slot is despawned with its spawn timer set to the
current shared respawn-cycle counter and the counter advances by 20 through
20, 40, 60, 80, 100, wrapping to 20 after 100; the counter is one value
shared by all four slots, so two deaths completing in the same update draw
consecutive values (60 then 80 here, leaving the counter at 100). -/
theorem c5_respawn_cycle :
    (∀ (a : ActorSystem) (i : Fin 4),
      (a.enemies i).state = ENEMY_STATE_WHITE_SPARK + DEATH_ANIMATION_LAST_FRAME ∨
        (a.enemies i).state = ENEMY_STATE_RED_SPARK + DEATH_ANIMATION_LAST_FRAME →
      a.process_slot i =
        { a with
          enemies := Function.update a.enemies i
            { a.enemies i with
              state := ENEMY_STATE_DESPAWNED
              spawn_timer_and_animation := a.enemy_respawn_counter_cycle }
          enemy_respawn_counter_cycle :=
            respawn_cycle_next a.enemy_respawn_counter_cycle }) ∧
    (respawn_cycle_next 20 = 40 ∧ respawn_cycle_next 40 = 60 ∧
      respawn_cycle_next 60 = 80 ∧ respawn_cycle_next 80 = 100 ∧
      respawn_cycle_next 100 = 20) ∧
    (((c5_two_deaths_sys.update 22 10 1 none 0).enemies 0).state =
        ENEMY_STATE_DESPAWNED ∧
      ((c5_two_deaths_sys.update 22 10 1 none 0).enemies
        0).spawn_timer_and_animation = 60 ∧
      ((c5_two_deaths_sys.update 22 10 1 none 0).enemies 1).state =
        ENEMY_STATE_DESPAWNED ∧
      ((c5_two_deaths_sys.update 22 10 1 none 0).enemies
        1).spawn_timer_and_animation = 80 ∧
      (c5_two_deaths_sys.update 22 10 1 none 0).enemy_respawn_counter_cycle =
        100) := by
  refine ⟨?_, by decide, by decide⟩
  intro a i h
  rcases h with h | h <;>
    simp [ActorSystem.process_slot, h, ENEMY_STATE_DESPAWNED,
      ENEMY_STATE_WHITE_SPARK, ENEMY_STATE_RED_SPARK,
      DEATH_ANIMATION_LAST_FRAME, ENEMY_STATE_SPAWNED]

/-- Witness for c5_respawn_cycle: completing slot 0's White-Spark death in
c5_two_deaths_sys reseeds its timer with the counter value 60 and steps the
shared counter to 80. -/
theorem c5_respawn_cycle_witness :
    ((c5_two_deaths_sys.process_slot 0).enemies 0).spawn_timer_and_animation = 60 ∧
    (c5_two_deaths_sys.process_slot 0).enemy_respawn_counter_cycle = 80 := by
  rw [c5_respawn_cycle.1 c5_two_deaths_sys 0 (Or.inl (by decide))]
  exact ⟨by decide, by decide⟩

/-- STEPs 1-7 of the airborne branch of handle_fall_or_jump: everything that
runs before the ground-collision check. -/
def hfj_airborne_pre (s : GameState) : GameState :=
  hfj_ceiling (hfj_momentum (hfj_gravity (hfj_integrate (hfj_counter s))))

/-- C8: on an airborne tick whose state after steps 1-7 has positive vertical
velocity and a solid tile 5 units below the head (or the odd-x neighbor),
handle_fall_or_jump ends by snapping y to the containing tile row's top minus
4 — ((y+5)/2)*2 - 4 in integer division — zeroing vertical velocity and
horizontal momentum and clearing the airborne flag, with nothing else run
afterwards. -/
theorem c8_floor_landing (s : GameState)
    (hair : s.comic_is_falling_or_jumping ≠ 0)
    (hvel : (hfj_airborne_pre s).comic_y_vel > 0)
    (hylo : 0 ≤ (hfj_airborne_pre s).comic_y)
    (hyhi : (hfj_airborne_pre s).comic_y ≤ 250)
    (hsolid :
      (is_tile_solid (hfj_airborne_pre s)
          (get_tile_at (hfj_airborne_pre s) (toU8 (hfj_airborne_pre s).comic_x)
            (toU8 ((hfj_airborne_pre s).comic_y + 5))) ||
        (decide ((hfj_airborne_pre s).comic_x % 2 = 1) &&
          is_tile_solid (hfj_airborne_pre s)
            (get_tile_at (hfj_airborne_pre s)
              (toU8 ((hfj_airborne_pre s).comic_x + 1))
              (toU8 ((hfj_airborne_pre s).comic_y + 5))))) = true) :
    handle_fall_or_jump s =
      { hfj_airborne_pre s with
        comic_y := ((hfj_airborne_pre s).comic_y + 5) / 2 * 2 - 4
        comic_is_falling_or_jumping := 0
        comic_y_vel := 0
        comic_x_momentum := 0 } := by
  have hy8 : toU8 ((hfj_airborne_pre s).comic_y + 5) =
      ((hfj_airborne_pre s).comic_y + 5).toNat := by
    unfold toU8
    congr 1
    omega
  have hcast : ((((hfj_airborne_pre s).comic_y + 5).toNat / 2 : Nat) : Int) =
      ((hfj_airborne_pre s).comic_y + 5) / 2 := by
    omega
  unfold handle_fall_or_jump
  rw [if_pos hair]
  show hfj_floor (hfj_airborne_pre s) = _
  unfold hfj_floor
  rw [if_pos hvel]
  dsimp only
  rw [if_pos hsolid, hy8, hcast]

/-- Tile map with a solid floor on tile row 9 and the matching physics state:
airborne at y = 12 falling with velocity 8 (step 1 unit to y = 13, foot at
y 18 in tile row 9). -/
def c8_state : GameState :=
  { c1_phys_state 8 with
    comic_y := 12
    ptiles := fun _ ty => if ty = 9 then 0x3F else 0
    tileset_last_passable := 0x3E }

/-- Witness for c8_floor_landing: the falling state of c8_state lands on the
row-9 floor, snapping to y = 14, grounded, with velocity and momentum 0. -/
theorem c8_floor_landing_witness :
    handle_fall_or_jump c8_state =
      { hfj_airborne_pre c8_state with
        comic_y := ((hfj_airborne_pre c8_state).comic_y + 5) / 2 * 2 - 4
        comic_is_falling_or_jumping := 0
        comic_y_vel := 0
        comic_x_momentum := 0 } :=
  c8_floor_landing c8_state (by decide) (by decide) (by decide) (by decide)
    (by decide)

/-- C9: move_left at the left stage edge (x = 0), and move_right at the right
stage edge (x ≥ MAP_WIDTH - 2), with a null level pointer, an invalid stage
number (≥ 3) or no exit configured in that direction, zero the horizontal
momentum and change nothing else — in particular no stage load is invoked
(the stage_loads counter is unchanged). -/
theorem c9_edge_noop (s : GameState) :
    (s.comic_x = 0 →
      (s.current_level = none ∨ 3 ≤ s.current_stage_number ∨
        (∃ lv, ∃ h : s.current_stage_number < 3, s.current_level = some lv ∧
          (lv.stages ⟨s.current_stage_number, h⟩).exit_l = 255)) →
      move_left s = { s with comic_x_momentum := 0 }) ∧
    (MAP_WIDTH - 2 ≤ s.comic_x →
      (s.current_level = none ∨ 3 ≤ s.current_stage_number ∨
        (∃ lv, ∃ h : s.current_stage_number < 3, s.current_level = some lv ∧
          (lv.stages ⟨s.current_stage_number, h⟩).exit_r = 255)) →
      move_right s = { s with comic_x_momentum := 0 }) := by
  constructor
  · intro hx hguard
    unfold move_left
    rw [if_pos hx]
    rcases hguard with hnone | hstage | ⟨lv, hlt, hlv, hexit⟩
    · rw [hnone]
    · cases hl : s.current_level with
      | none => rfl
      | some lv =>
        dsimp only
        rw [dif_pos hstage]
    · rw [hlv]
      dsimp only
      rw [dif_neg (by omega)]
      dsimp only
      rw [if_pos hexit]
  · intro hx hguard
    unfold move_right
    rw [if_pos hx]
    rcases hguard with hnone | hstage | ⟨lv, hlt, hlv, hexit⟩
    · rw [hnone]
    · cases hl : s.current_level with
      | none => rfl
      | some lv =>
        dsimp only
        rw [dif_pos hstage]
    · rw [hlv]
      dsimp only
      rw [dif_neg (by omega)]
      dsimp only
      rw [if_pos hexit]

/-- Witness for c9_edge_noop: at x = 0 with no level loaded, move_left only
zeroes the momentum; at x = 254 with an invalid stage number, move_right
does likewise. -/
theorem c9_edge_noop_witness :
    move_left { c1_phys_state 0 with comic_x := 0, comic_x_momentum := -3 } =
      { c1_phys_state 0 with comic_x := 0, comic_x_momentum := 0 } ∧
    move_right
        { c1_phys_state 0 with
          comic_x := 254, comic_x_momentum := 3, current_stage_number := 5 } =
      { c1_phys_state 0 with
        comic_x := 254, comic_x_momentum := 0, current_stage_number := 5 } :=
  ⟨(c9_edge_noop _).1 rfl (Or.inl rfl),
   (c9_edge_noop _).2 (by decide) (Or.inr (Or.inl (by decide)))⟩

/-- Spec-side door match (from the claim's words): the door slot is used and
the player stands at the door's exact y with x within [door.x, door.x+2]. -/
def door_match_spec (s : GameState) (d : door_t) : Prop :=
  d.x ≠ 255 ∧ d.y ≠ 255 ∧ s.comic_y = (d.y : Int) ∧
  (d.x : Int) ≤ s.comic_x ∧ s.comic_x ≤ (d.x : Int) + 2

/-- Spec-side door activation (from the claim's words): a level is loaded,
the stage number is valid, the open input is active, the player holds the
door key, door slot i of the current stage matches the player's position, and
no earlier slot matches. -/
def door_activation_spec (s : GameState) (i : Fin 3) : Prop :=
  ∃ lv, s.current_level = some lv ∧
    ∃ h : s.current_stage_number < 3,
      s.key_state_open = 1 ∧ s.comic_has_door_key = 1 ∧
      door_match_spec s ((lv.stages ⟨s.current_stage_number, h⟩).doors i) ∧
      ∀ j : Fin 3, j < i →
        ¬door_match_spec s ((lv.stages ⟨s.current_stage_number, h⟩).doors j)

/-- The loop body test of check_door_activation is exactly a spec-side door
match together with key possession. -/
theorem door_slot_activates_iff (s : GameState) (d : door_t) :
    door_slot_activates s d = true ↔
      door_match_spec s d ∧ s.comic_has_door_key = 1 := by
  unfold door_slot_activates door_match_spec
  simp only [Bool.and_eq_true, decide_eq_true_eq]
  omega

/-- check_door_activation activates slot i exactly under the spec-side
conditions, with the first matching slot winning. -/
theorem check_door_activation_iff (s : GameState) (i : Fin 3) :
    check_door_activation s = some i ↔ door_activation_spec s i := by
  unfold check_door_activation door_activation_spec
  cases hl : s.current_level with
  | none => simp
  | some lv =>
    simp only [Option.some.injEq, exists_eq_left']
    split_ifs with h1 h2 hd0 hd1 hd2
    · rw [iff_iff_implies_and_implies]
      refine ⟨fun he => absurd he (by simp), fun hr => ?_⟩
      obtain ⟨hlt, _⟩ := hr
      omega
    · rw [iff_iff_implies_and_implies]
      refine ⟨fun he => absurd he (by simp), fun hr => ?_⟩
      obtain ⟨hlt, hopen, _⟩ := hr
      omega
    · obtain ⟨hm0, hk0⟩ := (door_slot_activates_iff s _).mp hd0
      constructor
      · intro he
        obtain rfl : (0 : Fin 3) = i := Option.some.inj he
        refine ⟨by omega, by omega, hk0, hm0, fun j hj => ?_⟩
        exact absurd hj (by simp [Fin.lt_def])
      · rintro ⟨hlt, hopen, hkey, hmatch, hmin⟩
        rcases eq_or_ne i 0 with rfl | hne
        · rfl
        · exact absurd hm0 (hmin 0 (Fin.pos_of_ne_zero hne))
    · obtain ⟨hm1, hk1⟩ := (door_slot_activates_iff s _).mp hd1
      have hnm0 : ¬door_match_spec s
          ((lv.stages ⟨s.current_stage_number, by omega⟩).doors 0) :=
        fun hm0 => hd0 ((door_slot_activates_iff s _).mpr ⟨hm0, hk1⟩)
      constructor
      · intro he
        obtain rfl : (1 : Fin 3) = i := Option.some.inj he
        refine ⟨by omega, by omega, hk1, hm1, fun j hj => ?_⟩
        fin_cases j
        · exact hnm0
        · exact absurd hj (by decide)
        · exact absurd hj (by decide)
      · rintro ⟨hlt, hopen, hkey, hmatch, hmin⟩
        by_cases hi0 : i = 0
        · subst hi0
          exact absurd ((door_slot_activates_iff s _).mpr ⟨hmatch, hkey⟩) hd0
        · by_cases hi1 : i = 1
          · subst hi1
            rfl
          · have hi2 : i = 2 := by
              obtain ⟨iv, hv⟩ := i
              simp only [Fin.ext_iff] at hi0 hi1 ⊢
              omega
            subst hi2
            exact absurd hm1 (hmin 1 (by decide))
    · obtain ⟨hm2, hk2⟩ := (door_slot_activates_iff s _).mp hd2
      have hnm0 : ¬door_match_spec s
          ((lv.stages ⟨s.current_stage_number, by omega⟩).doors 0) :=
        fun hm0 => hd0 ((door_slot_activates_iff s _).mpr ⟨hm0, hk2⟩)
      have hnm1 : ¬door_match_spec s
          ((lv.stages ⟨s.current_stage_number, by omega⟩).doors 1) :=
        fun hm1 => hd1 ((door_slot_activates_iff s _).mpr ⟨hm1, hk2⟩)
      constructor
      · intro he
        obtain rfl : (2 : Fin 3) = i := Option.some.inj he
        refine ⟨by omega, by omega, hk2, hm2, fun j hj => ?_⟩
        fin_cases j
        · exact hnm0
        · exact hnm1
        · exact absurd hj (by decide)
      · rintro ⟨hlt, hopen, hkey, hmatch, hmin⟩
        by_cases hi0 : i = 0
        · subst hi0
          exact absurd ((door_slot_activates_iff s _).mpr ⟨hmatch, hkey⟩) hd0
        · by_cases hi1 : i = 1
          · subst hi1
            exact absurd ((door_slot_activates_iff s _).mpr ⟨hmatch, hkey⟩) hd1
          · have hi2 : i = 2 := by
              obtain ⟨iv, hv⟩ := i
              simp only [Fin.ext_iff] at hi0 hi1 ⊢
              omega
            subst hi2
            rfl
    · rw [iff_iff_implies_and_implies]
      refine ⟨fun he => absurd he (by simp), fun hr => ?_⟩
      obtain ⟨hlt, hopen, hkey, hmatch, hmin⟩ := hr
      exfalso
      by_cases hi0 : i = 0
      · subst hi0
        exact hd0 ((door_slot_activates_iff s _).mpr ⟨hmatch, hkey⟩)
      · by_cases hi1 : i = 1
        · subst hi1
          exact hd1 ((door_slot_activates_iff s _).mpr ⟨hmatch, hkey⟩)
        · have hi2 : i = 2 := by
            obtain ⟨iv, hv⟩ := i
            simp only [Fin.ext_iff] at hi0 hi1 ⊢
            omega
          subst hi2
          exact hd2 ((door_slot_activates_iff s _).mpr ⟨hmatch, hkey⟩)

/-- A door at (x = 10, y = 8) leading to level 1 stage 1. -/
def c4_door : door_t := { y := 8, x := 10, target_level := 1, target_stage := 1 }

/-- An unused door slot (x = y = 255). -/
def c4_unused_door : door_t := { y := 255, x := 255, target_level := 0, target_stage := 0 }

/-- A stage whose door slot 0 is the (10,8) door and whose slot 1 is the
given door. -/
def c4_stage (d1 : door_t) : stage_t :=
  { item_type := 0, item_y := 0, item_x := 0, exit_l := 255, exit_r := 255,
    doors := fun j => if j = 0 then c4_door else if j = 1 then d1 else c4_unused_door,
    enemies := fun _ => { shp_index := 0, behavior := 0x7f },
    tiles := fun _ _ => 0 }

/-- A game state in a level whose stages are c4_stage d1, with the player at
(cx, cy), the given key possession and open input. -/
def c4_state (d1 : door_t) (cx cy : Int) (key openk : Nat) : GameState :=
  { c1_phys_state 0 with
    comic_x := cx
    comic_y := cy
    comic_has_door_key := key
    key_state_open := openk
    current_level := some { stages := fun _ => c4_stage d1 }
    current_stage_number := 0 }

/-- C4: check_door_activation succeeds and activates door slot i exactly when
a level is loaded, the stage number is valid, the open input is active, the
player holds the door key, slot i matches (exact y, x within [door.x,
door.x+2]) and no earlier slot matches; for a door at (10,8) it succeeds for
player x in {10,11,12} at y = 8 and fails for x = 9, x = 13, y = 7, y = 9,
without the key, or without the open input; with two matching doors, the
first slot is the one activated. -/
theorem c4_door_activation :
    (∀ (s : GameState) (i : Fin 3),
      check_door_activation s = some i ↔ door_activation_spec s i) ∧
    check_door_activation (c4_state c4_unused_door 10 8 1 1) = some 0 ∧
    check_door_activation (c4_state c4_unused_door 11 8 1 1) = some 0 ∧
    check_door_activation (c4_state c4_unused_door 12 8 1 1) = some 0 ∧
    check_door_activation (c4_state c4_unused_door 9 8 1 1) = none ∧
    check_door_activation (c4_state c4_unused_door 13 8 1 1) = none ∧
    check_door_activation (c4_state c4_unused_door 10 7 1 1) = none ∧
    check_door_activation (c4_state c4_unused_door 10 9 1 1) = none ∧
    check_door_activation (c4_state c4_unused_door 10 8 0 1) = none ∧
    check_door_activation (c4_state c4_unused_door 10 8 1 0) = none ∧
    check_door_activation (c4_state c4_door 10 8 1 1) = some 0 :=
  ⟨check_door_activation_iff, by decide, by decide, by decide, by decide,
   by decide, by decide, by decide, by decide, by decide, by decide⟩

/- Helper lemmas about the one-spawn-per-tick gate. -/

/-- maybe_spawn_enemy does nothing once the gate is set. -/
theorem maybe_spawn_gate_mono (a : ActorSystem) (i : Fin 4)
    (h : a.spawned_this_tick ≠ 0) :
    (a.maybe_spawn_enemy i).spawned_this_tick ≠ 0 := by
  unfold ActorSystem.maybe_spawn_enemy
  rw [if_pos h]
  exact h

/-- The gate is never cleared during a slot step. -/
theorem process_slot_gate_mono (a : ActorSystem) (i : Fin 4)
    (h : a.spawned_this_tick ≠ 0) :
    (a.process_slot i).spawned_this_tick ≠ 0 := by
  simp only [ActorSystem.process_slot]
  simp only [apply_ite (fun s : ActorSystem => s.spawned_this_tick)]
  split_ifs <;> first | exact h | exact maybe_spawn_gate_mono _ _ h

/-- A despawned slot stays despawned through its step while the gate is set. -/
theorem process_slot_gate_blocks (a : ActorSystem) (i : Fin 4)
    (h0 : (a.enemies i).state = ENEMY_STATE_DESPAWNED)
    (hg : a.spawned_this_tick ≠ 0) :
    ((a.process_slot i).enemies i).state = ENEMY_STATE_DESPAWNED := by
  simp only [ActorSystem.process_slot, h0, if_true]
  split_ifs <;> first
    | (unfold ActorSystem.maybe_spawn_enemy
       rw [if_pos hg]
       simp [Function.update_same, h0])
    | simp [Function.update_same, h0]

/-- If maybe_spawn_enemy turns a despawned slot into a spawned one, it has
set the gate. -/
theorem maybe_spawn_spawned_sets_gate (a : ActorSystem) (i : Fin 4)
    (h0 : (a.enemies i).state = ENEMY_STATE_DESPAWNED)
    (h1 : ((a.maybe_spawn_enemy i).enemies i).state = ENEMY_STATE_SPAWNED) :
    (a.maybe_spawn_enemy i).spawned_this_tick ≠ 0 := by
  by_cases hgate : a.spawned_this_tick ≠ 0
  · exfalso
    unfold ActorSystem.maybe_spawn_enemy at h1
    rw [if_pos hgate] at h1
    rw [h0] at h1
    exact absurd h1 (by decide)
  · rw [not_ne_iff] at hgate
    simp only [ActorSystem.maybe_spawn_enemy] at h1 ⊢
    rw [if_neg (by simp [hgate])] at h1 ⊢
    by_cases hb : Nat.land (a.enemies i).behavior 0x7f ≥ ENEMY_BEHAVIOR_UNUSED
    · rw [if_pos hb] at h1
      exfalso
      simp [Function.update_same, ENEMY_STATE_DESPAWNED, ENEMY_STATE_SPAWNED] at h1
    · rw [if_neg hb]
      simp

/-- When a despawned slot ends its step spawned, the step has set the gate. -/
theorem process_slot_spawn_sets_gate (a : ActorSystem) (i : Fin 4)
    (h0 : (a.enemies i).state = ENEMY_STATE_DESPAWNED)
    (h1 : ((a.process_slot i).enemies i).state = ENEMY_STATE_SPAWNED) :
    (a.process_slot i).spawned_this_tick ≠ 0 := by
  revert h1
  simp only [ActorSystem.process_slot, h0, if_true]
  split_ifs <;> intro h1 <;> first
    | exact maybe_spawn_spawned_sets_gate _ i
        (by simp [Function.update_same, h0]) h1
    | (exfalso
       simp [Function.update_same, h0, ENEMY_STATE_DESPAWNED,
         ENEMY_STATE_SPAWNED] at h1)

/-- A despawned slot can only end its step spawned if the gate was clear. -/
theorem process_slot_spawned_needs_gate0 (a : ActorSystem) (i : Fin 4)
    (h0 : (a.enemies i).state = ENEMY_STATE_DESPAWNED)
    (h1 : ((a.process_slot i).enemies i).state = ENEMY_STATE_SPAWNED) :
    a.spawned_this_tick = 0 := by
  by_contra hg
  have hb := process_slot_gate_blocks a i h0 hg
  rw [hb] at h1
  exact absurd h1 (by decide)

/-- The number of slots that go from Despawned to Spawned between the actor
states `a` and `b`. -/
def spawn_transition_count (a b : ActorSystem) : Nat :=
  (if (a.enemies 0).state = ENEMY_STATE_DESPAWNED ∧
      (b.enemies 0).state = ENEMY_STATE_SPAWNED then 1 else 0) +
  (if (a.enemies 1).state = ENEMY_STATE_DESPAWNED ∧
      (b.enemies 1).state = ENEMY_STATE_SPAWNED then 1 else 0) +
  (if (a.enemies 2).state = ENEMY_STATE_DESPAWNED ∧
      (b.enemies 2).state = ENEMY_STATE_SPAWNED then 1 else 0) +
  (if (a.enemies 3).state = ENEMY_STATE_DESPAWNED ∧
      (b.enemies 3).state = ENEMY_STATE_SPAWNED then 1 else 0)

/-- C3: a single ActorSystem::update call, whatever the four slots' states,
timers and behaviors, moves at most one slot from Despawned to Spawned. -/
theorem c3_one_spawn_per_update (a : ActorSystem) (cx cy cf : Nat)
    (tiles : Option (Nat → Nat → Nat)) (cam : Int) :
    spawn_transition_count a (a.update cx cy cf tiles cam) ≤ 1 := by
  have main : ∀ b : ActorSystem, b.spawned_this_tick = 0 → b.enemies = a.enemies →
      spawn_transition_count a
        ((((b.process_slot 0).process_slot 1).process_slot 2).process_slot 3) ≤ 1 := by
    intro b hb0 hbe
    set b1 := b.process_slot 0 with hb1
    set b2 := b1.process_slot 1 with hb2
    set b3 := b2.process_slot 2 with hb3
    set b4 := b3.process_slot 3 with hb4
    have e40 : b4.enemies 0 = b1.enemies 0 := by
      rw [hb4, process_slot_ne _ 3 0 (by decide), hb3,
        process_slot_ne _ 2 0 (by decide), hb2, process_slot_ne _ 1 0 (by decide)]
    have e41 : b4.enemies 1 = b2.enemies 1 := by
      rw [hb4, process_slot_ne _ 3 1 (by decide), hb3,
        process_slot_ne _ 2 1 (by decide)]
    have e42 : b4.enemies 2 = b3.enemies 2 := by
      rw [hb4, process_slot_ne _ 3 2 (by decide)]
    have s0 : b.enemies 0 = a.enemies 0 := by rw [hbe]
    have s1 : b1.enemies 1 = a.enemies 1 := by
      rw [hb1, process_slot_ne _ 0 1 (by decide), hbe]
    have s2 : b2.enemies 2 = a.enemies 2 := by
      rw [hb2, process_slot_ne _ 1 2 (by decide), hb1,
        process_slot_ne _ 0 2 (by decide), hbe]
    have s3 : b3.enemies 3 = a.enemies 3 := by
      rw [hb3, process_slot_ne _ 2 3 (by decide), hb2,
        process_slot_ne _ 1 3 (by decide), hb1,
        process_slot_ne _ 0 3 (by decide), hbe]
    have m1 : b1.spawned_this_tick ≠ 0 → b2.spawned_this_tick ≠ 0 :=
      process_slot_gate_mono b1 1
    have m2 : b2.spawned_this_tick ≠ 0 → b3.spawned_this_tick ≠ 0 :=
      process_slot_gate_mono b2 2
    have g0 : (a.enemies 0).state = ENEMY_STATE_DESPAWNED →
        (b4.enemies 0).state = ENEMY_STATE_SPAWNED →
        b1.spawned_this_tick ≠ 0 := by
      intro h0 h1
      rw [e40] at h1
      exact process_slot_spawn_sets_gate b 0 (by rw [s0]; exact h0) h1
    have g1 : (a.enemies 1).state = ENEMY_STATE_DESPAWNED →
        (b4.enemies 1).state = ENEMY_STATE_SPAWNED →
        b2.spawned_this_tick ≠ 0 := by
      intro h0 h1
      rw [e41] at h1
      exact process_slot_spawn_sets_gate b1 1 (by rw [s1]; exact h0) h1
    have g2 : (a.enemies 2).state = ENEMY_STATE_DESPAWNED →
        (b4.enemies 2).state = ENEMY_STATE_SPAWNED →
        b3.spawned_this_tick ≠ 0 := by
      intro h0 h1
      rw [e42] at h1
      exact process_slot_spawn_sets_gate b2 2 (by rw [s2]; exact h0) h1
    have z1 : (a.enemies 1).state = ENEMY_STATE_DESPAWNED →
        (b4.enemies 1).state = ENEMY_STATE_SPAWNED →
        b1.spawned_this_tick = 0 := by
      intro h0 h1
      rw [e41] at h1
      exact process_slot_spawned_needs_gate0 b1 1 (by rw [s1]; exact h0) h1
    have z2 : (a.enemies 2).state = ENEMY_STATE_DESPAWNED →
        (b4.enemies 2).state = ENEMY_STATE_SPAWNED →
        b2.spawned_this_tick = 0 := by
      intro h0 h1
      rw [e42] at h1
      exact process_slot_spawned_needs_gate0 b2 2 (by rw [s2]; exact h0) h1
    have z3 : (a.enemies 3).state = ENEMY_STATE_DESPAWNED →
        (b4.enemies 3).state = ENEMY_STATE_SPAWNED →
        b3.spawned_this_tick = 0 := by
      intro h0 h1
      exact process_slot_spawned_needs_gate0 b3 3 (by rw [s3]; exact h0) h1
    by_cases c0 : (a.enemies 0).state = ENEMY_STATE_DESPAWNED ∧
        (b4.enemies 0).state = ENEMY_STATE_SPAWNED
    · have hg1 : b1.spawned_this_tick ≠ 0 := g0 c0.1 c0.2
      have n1 : ¬((a.enemies 1).state = ENEMY_STATE_DESPAWNED ∧
          (b4.enemies 1).state = ENEMY_STATE_SPAWNED) :=
        fun c1 => hg1 (z1 c1.1 c1.2)
      have n2 : ¬((a.enemies 2).state = ENEMY_STATE_DESPAWNED ∧
          (b4.enemies 2).state = ENEMY_STATE_SPAWNED) :=
        fun c2 => (m1 hg1) (z2 c2.1 c2.2)
      have n3 : ¬((a.enemies 3).state = ENEMY_STATE_DESPAWNED ∧
          (b4.enemies 3).state = ENEMY_STATE_SPAWNED) :=
        fun c3 => (m2 (m1 hg1)) (z3 c3.1 c3.2)
      simp [spawn_transition_count, c0, n1, n2, n3]
    · by_cases c1 : (a.enemies 1).state = ENEMY_STATE_DESPAWNED ∧
          (b4.enemies 1).state = ENEMY_STATE_SPAWNED
      · have hg2 : b2.spawned_this_tick ≠ 0 := g1 c1.1 c1.2
        have n2 : ¬((a.enemies 2).state = ENEMY_STATE_DESPAWNED ∧
            (b4.enemies 2).state = ENEMY_STATE_SPAWNED) :=
          fun c2 => hg2 (z2 c2.1 c2.2)
        have n3 : ¬((a.enemies 3).state = ENEMY_STATE_DESPAWNED ∧
            (b4.enemies 3).state = ENEMY_STATE_SPAWNED) :=
          fun c3 => (m2 hg2) (z3 c3.1 c3.2)
        simp [spawn_transition_count, c0, c1, n2, n3]
      · by_cases c2 : (a.enemies 2).state = ENEMY_STATE_DESPAWNED ∧
            (b4.enemies 2).state = ENEMY_STATE_SPAWNED
        · have hg3 : b3.spawned_this_tick ≠ 0 := g2 c2.1 c2.2
          have n3 : ¬((a.enemies 3).state = ENEMY_STATE_DESPAWNED ∧
              (b4.enemies 3).state = ENEMY_STATE_SPAWNED) :=
            fun c3 => hg3 (z3 c3.1 c3.2)
          simp [spawn_transition_count, c0, c1, c2, n3]
        · by_cases c3 : (a.enemies 3).state = ENEMY_STATE_DESPAWNED ∧
              (b4.enemies 3).state = ENEMY_STATE_SPAWNED <;>
            simp [spawn_transition_count, c0, c1, c2, c3]
  simp only [ActorSystem.update]
  exact main _ rfl rfl

end Comic
